import Mathlib

/-!
The compressed data handle of libfsapfs

A shallow embedding of `libfsapfs/libfsapfs_compressed_data_handle.c`
(`initialize`, `free`, `read_segment_data`, `seek_segment_offset`) and
theorems about it.

Conventions of the embedding

* A C pointer that the code compares with `NULL` is an `Option`: `none` is
  `NULL`.  A `T **` is an `Option (Option T)`.
* `off64_t` and `ssize_t` are `Int`, `size_t` and `size64_t` are `Nat`.  Where
  the C arithmetic can leave the range of the type the conversion is written
  out (`int64_of`, `size_t_of`); the platform is LP64 (`SSIZE_MAX = 2^63 - 1`).
* A byte buffer is a `List Nat`, one entry per byte.
* The collaborators that are called but not defined in the file
  (`libfdata_stream_read_buffer_at_offset`, `libfsapfs_decompress_data`,
  `memory_allocate`) are parameters; every call to the first two is recorded in
  a trace, together with every `memory_copy`.
* The `while` loop of `read_segment_data` is run with a bound on the number of
  executions of its body; a run that needs more ends as `out_of_fuel`.
-/

/-! ## Constants and error values -/

/-- The block size, `#define LIBFSAPFS_COMPRESSED_DATA_HANDLE_BLOCK_SIZE 65536`. -/
def LIBFSAPFS_COMPRESSED_DATA_HANDLE_BLOCK_SIZE : Nat := 65536

/-- The largest `ssize_t` of the platform (LP64). -/
def SSIZE_MAX : Nat := 2 ^ 63 - 1

/-- Conversion of an integer to a 64-bit two's complement signed type
(`off64_t`, `ssize_t`): the value modulo `2^64` in `[-2^63, 2^63)`. -/
def int64_of (x : Int) : Int := (x + 2 ^ 63) % 2 ^ 64 - 2 ^ 63

/-- Conversion of an integer to `size_t`: the value modulo `2^64`. -/
def size_t_of (x : Int) : Nat := (x % 2 ^ 64).toNat

/-- The values an `off64_t` can hold. -/
def off64_range (x : Int) : Prop := -(2 ^ 63) ≤ x ∧ x < 2 ^ 63

instance (x : Int) : Decidable (off64_range x) := by
  unfold off64_range; infer_instance

/-- The libcerror error domains the file uses
(`LIBCERROR_ERROR_DOMAIN_ARGUMENTS`, `_RUNTIME`, `_MEMORY`, `_IO`, `_ENCRYPTION`;
the input/output domain is spelled out). -/
inductive ErrorDomain where
  | ARGUMENTS
  | RUNTIME
  | MEMORY
  | INPUT_OUTPUT
  | ENCRYPTION
  deriving DecidableEq, Repr

/-- The libcerror error codes the file uses, named as in the source without
the `LIBCERROR_` head. -/
inductive ErrorCode where
  | ARGUMENT_ERROR_INVALID_VALUE
  | ARGUMENT_ERROR_VALUE_OUT_OF_BOUNDS
  | ARGUMENT_ERROR_VALUE_EXCEEDS_MAXIMUM
  | ARGUMENT_ERROR_UNSUPPORTED_VALUE
  | RUNTIME_ERROR_VALUE_ALREADY_SET
  | RUNTIME_ERROR_VALUE_OUT_OF_BOUNDS
  | MEMORY_ERROR_INSUFFICIENT
  | IO_ERROR_READ_FAILED
  | ENCRYPTION_ERROR_GENERIC
  deriving DecidableEq, Repr

/-- The error a call of `libcerror_error_set` records: domain and code. -/
structure Error where
  domain : ErrorDomain
  code : ErrorCode
  deriving DecidableEq, Repr

/-- Modelled from the spec: the compression method identifiers
`LIBFSAPFS_COMPRESSION_METHOD_NONE`, `_DEFLATE` and `_LZVN` of
`libfsapfs_definitions.h`, which is not among the sources ("one of none,
deflate, a proprietary fast codec").  Their values are parameters. -/
structure Definitions where
  LIBFSAPFS_COMPRESSION_METHOD_NONE : Int
  LIBFSAPFS_COMPRESSION_METHOD_DEFLATE : Int
  LIBFSAPFS_COMPRESSION_METHOD_LZVN : Int
  deriving DecidableEq, Repr

/-! ## The handle -/

/-- Modelled from the spec: `struct libfsapfs_compressed_data_handle` of
`libfsapfs_compressed_data_handle.h`, which is not among the sources.  The
fields are the ones the functions of the `.c` file use: the cursor, the
underlying stream (a pointer, here an address), the logical size, the method,
the index of the cached block (`-1`: none), the raw buffer, the decoded buffer
and the number of valid bytes in the decoded buffer. -/
structure libfsapfs_compressed_data_handle_t where
  current_segment_offset : Int
  compressed_data_stream : Option Nat
  uncompressed_data_size : Nat
  compression_method : Int
  compressed_data_stream_offset : Int
  compressed_segment_data : List Nat
  segment_data : List Nat
  segment_data_size : Nat
  deriving DecidableEq, Repr

/-! ## Collaborators -/

/-- The functions `read_segment_data` calls and the file does not define.

`libfdata_stream_read_buffer_at_offset stream buffer buffer_size offset` gives
the `ssize_t` it returns and the contents of `buffer` afterwards.

`libfsapfs_decompress_data compressed_data compressed_data_size
compression_method uncompressed_data uncompressed_data_size` gives the `int` it
returns, the contents of `uncompressed_data` afterwards and the value of
`*uncompressed_data_size` afterwards.

What a call gives is taken to depend on its arguments only; the code is
single-threaded and the underlying stream is read-only. -/
structure Collaborators where
  libfdata_stream_read_buffer_at_offset :
    Option Nat → List Nat → Nat → Int → Int × List Nat
  libfsapfs_decompress_data :
    List Nat → Nat → Int → List Nat → Nat → Int × List Nat × Nat

/-- The outcome of the three `memory_allocate` calls of `initialize`, in call
order: whether the structure was allocated, and the fresh raw and decoded
buffers with whatever bytes they hold (`none`: the allocation returned
`NULL`). -/
structure Allocations where
  data_handle : Bool
  compressed_segment_data : Option (List Nat)
  segment_data : Option (List Nat)
  deriving DecidableEq, Repr

/-- What a call did to the outside, in order. -/
inductive Event where
  /-- A call `libfdata_stream_read_buffer_at_offset( stream, .., buffer_size, offset, .. )`. -/
  | stream_read (stream : Option Nat) (buffer_size : Nat) (offset : Int)
  /-- A call `libfsapfs_decompress_data( .., compressed_data_size, compression_method, .., &uncompressed_data_size )`,
  with the compressed bytes handed over. -/
  | decompress (compressed_data : List Nat) (compressed_data_size : Nat)
      (compression_method : Int) (uncompressed_data_size : Nat)
  /-- A call `memory_copy( &segment_data[ destination ], &data_handle->segment_data[ source ], size )`. -/
  | memory_copy (destination : Nat) (source : Nat) (size : Nat)
  deriving DecidableEq, Repr

/-- `memory_copy( &destination[ destination_offset ], &source[ source_offset ], size )`:
`memcpy`, which returns its destination and so never `NULL` here.  The result
is the destination buffer afterwards. -/
def memory_copy (destination : List Nat) (destination_offset : Nat)
    (source : List Nat) (source_offset : Nat) (size : Nat) : List Nat :=
  destination.take destination_offset
    ++ (source.drop source_offset).take size
    ++ destination.drop (destination_offset + size)

/-! ## initialize and free -/

/-- What `initialize` or `free` returns: the `int`, the error set (if any) and
the argument `data_handle` with the value it references afterwards. -/
structure LifecycleResult where
  ret : Int
  error : Option Error
  data_handle : Option (Option libfsapfs_compressed_data_handle_t)
  deriving DecidableEq, Repr

/-- `libfsapfs_compressed_data_handle_initialize` (lines 38-180).
`memory_set` is `memset`: it returns its first argument, so its `NULL` branch
(lines 107-125) is not taken after a successful allocation. -/
def libfsapfs_compressed_data_handle_initialize
    (defs : Definitions) (mem : Allocations)
    (data_handle : Option (Option libfsapfs_compressed_data_handle_t))
    (compressed_data_stream : Option Nat)
    (uncompressed_data_size : Nat)
    (compression_method : Int) : LifecycleResult :=
  match data_handle with
  | none =>
    ⟨-1, some ⟨.ARGUMENTS, .ARGUMENT_ERROR_INVALID_VALUE⟩, none⟩
  | some (some h) =>
    ⟨-1, some ⟨.RUNTIME, .RUNTIME_ERROR_VALUE_ALREADY_SET⟩, some (some h)⟩
  | some none =>
    if compressed_data_stream = none then
      ⟨-1, some ⟨.ARGUMENTS, .ARGUMENT_ERROR_INVALID_VALUE⟩, some none⟩
    else if compression_method ≠ defs.LIBFSAPFS_COMPRESSION_METHOD_NONE
        ∧ compression_method ≠ defs.LIBFSAPFS_COMPRESSION_METHOD_DEFLATE
        ∧ compression_method ≠ defs.LIBFSAPFS_COMPRESSION_METHOD_LZVN then
      ⟨-1, some ⟨.ARGUMENTS, .ARGUMENT_ERROR_UNSUPPORTED_VALUE⟩, some none⟩
    else if mem.data_handle = false then
      -- goto on_error with *data_handle == NULL
      ⟨-1, some ⟨.MEMORY, .MEMORY_ERROR_INSUFFICIENT⟩, some none⟩
    else
      -- memory_set( *data_handle, 0, sizeof( .. ) ): every field is zero
      match mem.compressed_segment_data with
      | none =>
        -- on_error: the structure is freed, *data_handle = NULL
        ⟨-1, some ⟨.MEMORY, .MEMORY_ERROR_INSUFFICIENT⟩, some none⟩
      | some compressed_segment_data =>
        match mem.segment_data with
        | none =>
          -- on_error: both allocations are freed, *data_handle = NULL
          ⟨-1, some ⟨.MEMORY, .MEMORY_ERROR_INSUFFICIENT⟩, some none⟩
        | some segment_data =>
          ⟨1, none, some (some
            { current_segment_offset := 0
              compressed_data_stream := compressed_data_stream
              uncompressed_data_size := uncompressed_data_size
              compression_method := compression_method
              compressed_data_stream_offset := -1
              compressed_segment_data := compressed_segment_data
              segment_data := segment_data
              segment_data_size := 0 })⟩

/-- `libfsapfs_compressed_data_handle_free` (lines 185-220). -/
def libfsapfs_compressed_data_handle_free
    (data_handle : Option (Option libfsapfs_compressed_data_handle_t)) :
    LifecycleResult :=
  match data_handle with
  | none => ⟨-1, some ⟨.ARGUMENTS, .ARGUMENT_ERROR_INVALID_VALUE⟩, none⟩
  | some _ => ⟨1, none, some none⟩

/-! ## seek_segment_offset -/

/-- What `seek_segment_offset` returns: the `off64_t`, the error set (if any)
and the handle afterwards. -/
structure SeekResult where
  ret : Int
  error : Option Error
  data_handle : Option libfsapfs_compressed_data_handle_t
  deriving DecidableEq, Repr

/-- `libfsapfs_compressed_data_handle_seek_segment_offset` (lines 386-435). -/
def libfsapfs_compressed_data_handle_seek_segment_offset
    (data_handle : Option libfsapfs_compressed_data_handle_t)
    (segment_index : Int) (segment_offset : Int) : SeekResult :=
  match data_handle with
  | none => ⟨-1, some ⟨.ARGUMENTS, .ARGUMENT_ERROR_INVALID_VALUE⟩, none⟩
  | some h =>
    if segment_index ≠ 0 then
      ⟨-1, some ⟨.ARGUMENTS, .ARGUMENT_ERROR_VALUE_OUT_OF_BOUNDS⟩, some h⟩
    else if segment_offset < 0 then
      ⟨-1, some ⟨.ARGUMENTS, .ARGUMENT_ERROR_VALUE_OUT_OF_BOUNDS⟩, some h⟩
    else
      ⟨segment_offset, none, some { h with current_segment_offset := segment_offset }⟩

/-! ## read_segment_data -/

/-- The variables of a running `read_segment_data`: the handle, the caller's
buffer `segment_data`, the parameter `segment_data_size` (the request that
remains), the locals, and the trace so far. -/
structure ReadState where
  data_handle : libfsapfs_compressed_data_handle_t
  segment_data : List Nat
  segment_data_size : Nat
  data_stream_offset : Int
  data_offset : Nat
  read_size : Nat
  segment_data_offset : Nat
  read_count : Int
  trace : List Event
  deriving DecidableEq, Repr

/-- How a piece of the loop body ends: it falls through to what follows, or
the function returns (always `-1`, with an error). -/
inductive Step where
  | next (s : ReadState)
  | ret (value : Int) (error : Error) (s : ReadState)
  deriving DecidableEq, Repr

/-- Lines 298-343: the block of `if( data_handle->compressed_data_stream_offset
!= data_stream_offset )`. -/
def read_segment_data_fetch (env : Collaborators) (s : ReadState) : Step :=
  if s.data_handle.compressed_data_stream_offset ≠ s.data_stream_offset then
    let r := env.libfdata_stream_read_buffer_at_offset
      s.data_handle.compressed_data_stream
      s.data_handle.compressed_segment_data
      LIBFSAPFS_COMPRESSED_DATA_HANDLE_BLOCK_SIZE
      s.data_stream_offset
    let s1 : ReadState :=
      { s with
        read_count := r.1
        data_handle := { s.data_handle with compressed_segment_data := r.2 }
        trace := s.trace ++ [Event.stream_read s.data_handle.compressed_data_stream
          LIBFSAPFS_COMPRESSED_DATA_HANDLE_BLOCK_SIZE s.data_stream_offset] }
    if s1.read_count < 0 then
      .ret (-1) ⟨.INPUT_OUTPUT, .IO_ERROR_READ_FAILED⟩ s1
    else
      let h2 : libfsapfs_compressed_data_handle_t :=
        { s1.data_handle with
          compressed_data_stream_offset := s1.data_stream_offset
          segment_data_size := LIBFSAPFS_COMPRESSED_DATA_HANDLE_BLOCK_SIZE }
      let d := env.libfsapfs_decompress_data
        h2.compressed_segment_data
        (size_t_of s1.read_count)
        h2.compression_method
        h2.segment_data
        h2.segment_data_size
      let s3 : ReadState :=
        { s1 with
          data_handle := { h2 with segment_data := d.2.1, segment_data_size := d.2.2 }
          trace := s1.trace ++ [Event.decompress h2.compressed_segment_data
            (size_t_of s1.read_count) h2.compression_method h2.segment_data_size] }
      if d.1 ≠ 1 then
        .ret (-1) ⟨.ENCRYPTION, .ENCRYPTION_ERROR_GENERIC⟩ s3
      else
        .next s3
  else
    .next s

/-- Lines 361-374: `memory_copy( &segment_data[ segment_data_offset ],
&data_handle->segment_data[ data_offset ], read_size )`. -/
@[noinline]
def read_segment_data_memory_copy (s : ReadState) : ReadState :=
  { s with
    segment_data := memory_copy s.segment_data s.segment_data_offset
      s.data_handle.segment_data s.data_offset s.read_size
    trace := s.trace ++ [Event.memory_copy s.segment_data_offset s.data_offset s.read_size] }

/-- Line 375: `data_handle->current_segment_offset += read_size`.  The sum of
an `off64_t` and a `size_t` is taken modulo `2^64` and stored as a signed
value. -/
@[noinline]
def read_segment_data_advance (s : ReadState) : ReadState :=
  { s with
    data_handle :=
      { s.data_handle with
        current_segment_offset :=
          int64_of (s.data_handle.current_segment_offset + s.read_size) } }

/-- Lines 344-375: the bounds check, the clamp of `read_size`, the copy and
the advance of the cursor. -/
def read_segment_data_copy (s : ReadState) : Step :=
  if s.data_offset ≥ s.data_handle.segment_data_size then
    .ret (-1) ⟨.RUNTIME, .RUNTIME_ERROR_VALUE_OUT_OF_BOUNDS⟩ s
  else
    let read_size := s.data_handle.segment_data_size - s.data_offset
    let read_size := if read_size > s.segment_data_size then s.segment_data_size else read_size
    .next (read_segment_data_advance
      (read_segment_data_memory_copy { s with read_size := read_size }))

/-- The body of `while( segment_data_size > 0 )` (lines 297-376). -/
def read_segment_data_body (env : Collaborators) (s : ReadState) : Step :=
  match read_segment_data_fetch env s with
  | .ret value error s1 => .ret value error s1
  | .next s1 => read_segment_data_copy s1

/-- How a run of `read_segment_data` ends: it returns a value, with the error
it set if any, or the loop body was executed as often as the bound allows and
the loop condition still holds. -/
inductive Outcome where
  | returned (value : Int) (error : Option Error)
  | out_of_fuel
  deriving DecidableEq, Repr

/-- The result of a run of `read_segment_data`: how it ended, the handle and
the caller's buffer at that point, and the calls made. -/
structure ReadResult where
  outcome : Outcome
  data_handle : Option libfsapfs_compressed_data_handle_t
  segment_data : Option (List Nat)
  trace : List Event
  deriving DecidableEq, Repr

/-- The `while` loop and what follows it (lines 296-379); the first argument
bounds the number of executions of the body. -/
def read_segment_data_loop (env : Collaborators) : Nat → ReadState → ReadResult
  | 0, s =>
    if s.segment_data_size > 0 then
      ⟨.out_of_fuel, some s.data_handle, some s.segment_data, s.trace⟩
    else
      ⟨.returned (int64_of s.segment_data_offset) none,
        some { s.data_handle with
          current_segment_offset :=
            int64_of (s.data_handle.current_segment_offset + s.segment_data_offset) },
        some s.segment_data, s.trace⟩
  | fuel + 1, s =>
    if s.segment_data_size > 0 then
      match read_segment_data_body env s with
      | .ret value error s1 =>
        ⟨.returned value (some error), some s1.data_handle, some s1.segment_data, s1.trace⟩
      | .next s1 => read_segment_data_loop env fuel s1
    else
      ⟨.returned (int64_of s.segment_data_offset) none,
        some { s.data_handle with
          current_segment_offset :=
            int64_of (s.data_handle.current_segment_offset + s.segment_data_offset) },
        some s.segment_data, s.trace⟩

/-- The state at the loop head (lines 238-242 and 293-294): `/` and `%` of C
truncate towards zero, and the remainder is converted to `size_t`. -/
def read_segment_data_enter (h : libfsapfs_compressed_data_handle_t)
    (segment_data : List Nat) (segment_data_size : Nat) : ReadState :=
  { data_handle := h
    segment_data := segment_data
    segment_data_size := segment_data_size
    data_stream_offset :=
      Int.tdiv h.current_segment_offset LIBFSAPFS_COMPRESSED_DATA_HANDLE_BLOCK_SIZE
    data_offset :=
      size_t_of (Int.tmod h.current_segment_offset LIBFSAPFS_COMPRESSED_DATA_HANDLE_BLOCK_SIZE)
    read_size := 0
    segment_data_offset := 0
    read_count := 0
    trace := [] }

/-- `libfsapfs_compressed_data_handle_read_segment_data` (lines 226-380); the
parameters the function does not use are left out.  `fuel` bounds the number
of executions of the loop body. -/
def libfsapfs_compressed_data_handle_read_segment_data
    (env : Collaborators) (fuel : Nat)
    (data_handle : Option libfsapfs_compressed_data_handle_t)
    (segment_index : Int)
    (segment_data : Option (List Nat))
    (segment_data_size : Nat) : ReadResult :=
  match data_handle with
  | none =>
    ⟨.returned (-1) (some ⟨.ARGUMENTS, .ARGUMENT_ERROR_INVALID_VALUE⟩), none, segment_data, []⟩
  | some h =>
    if segment_index ≠ 0 then
      ⟨.returned (-1) (some ⟨.ARGUMENTS, .ARGUMENT_ERROR_VALUE_OUT_OF_BOUNDS⟩),
        some h, segment_data, []⟩
    else
      match segment_data with
      | none =>
        ⟨.returned (-1) (some ⟨.ARGUMENTS, .ARGUMENT_ERROR_INVALID_VALUE⟩), some h, none, []⟩
      | some buffer =>
        if segment_data_size > SSIZE_MAX then
          ⟨.returned (-1) (some ⟨.ARGUMENTS, .ARGUMENT_ERROR_VALUE_EXCEEDS_MAXIMUM⟩),
            some h, some buffer, []⟩
        else
          read_segment_data_loop env fuel (read_segment_data_enter h buffer segment_data_size)

/-! ## Observations on a trace -/

/-- The calls to the underlying stream and to the codec in a trace. -/
def collaborator_calls (trace : List Event) : List Event :=
  trace.filter fun e =>
    match e with
    | .memory_copy _ _ _ => false
    | _ => true

/-- The number of bytes the `memory_copy` calls of a trace placed into the
caller's buffer. -/
def copied_bytes : List Event → Nat
  | [] => 0
  | .memory_copy _ _ size :: rest => size + copied_bytes rest
  | _ :: rest => copied_bytes rest

/-- The condition under which every further execution of the body is a cache
hit followed by a copy: the request is not empty, the block of
`data_stream_offset` is the cached one and `data_offset` lies inside its valid
bytes. -/
def Spinning (s : ReadState) : Prop :=
  0 < s.segment_data_size
    ∧ s.data_handle.compressed_data_stream_offset = s.data_stream_offset
    ∧ s.data_offset < s.data_handle.segment_data_size

instance (s : ReadState) : Decidable (Spinning s) := by
  unfold Spinning; infer_instance

/-- Whether a piece of the loop body fell through (did not return). -/
def Step.falls_through : Step → Bool
  | .next _ => true
  | .ret _ _ _ => false

/-- The variables at the point where a piece of the loop body ended. -/
def Step.state : Step → ReadState
  | .next s => s
  | .ret _ _ s => s

/-! ## Example streams -/

/-- The stream of the end-to-end scenario: two blocks, read at offsets 0 and 1
(in blocks); block 0 decodes to 65536 bytes, block 1 to 1024 bytes; a read at
any other offset is at the end of the stream and gives no bytes. -/
def scenario : Collaborators where
  libfdata_stream_read_buffer_at_offset := fun _ buffer _ offset =>
    if offset = 0 then (2, [0, 0] ++ buffer.drop 2)
    else if offset = 1 then (2, [1, 0] ++ buffer.drop 2)
    else (0, buffer)
  libfsapfs_decompress_data := fun compressed_data compressed_data_size _ uncompressed_data size =>
    if compressed_data_size = 2 ∧ compressed_data.take 2 = [0, 0] then
      (1, List.replicate 65536 160, 65536)
    else if compressed_data_size = 2 ∧ compressed_data.take 2 = [1, 0] then
      (1, List.replicate 1024 177 ++ uncompressed_data.drop 1024, 1024)
    else (-1, uncompressed_data, size)

/-- A handle as `initialize` makes it for the scenario (stream at address 1,
method 1, 66560 bytes). -/
def scenario_handle : libfsapfs_compressed_data_handle_t :=
  { current_segment_offset := 0
    compressed_data_stream := some 1
    uncompressed_data_size := 66560
    compression_method := 1
    compressed_data_stream_offset := -1
    compressed_segment_data := []
    segment_data := []
    segment_data_size := 0 }

/-- A one-block stream: the block at offset 0 decodes to the four bytes
`10, 20, 30, 40`; a read at any other offset gives no bytes, which decode to
no bytes. -/
def tiny : Collaborators where
  libfdata_stream_read_buffer_at_offset := fun _ buffer _ offset =>
    if offset = 0 then (1, [9] ++ buffer.drop 1) else (0, buffer)
  libfsapfs_decompress_data := fun _ compressed_data_size _ uncompressed_data _ =>
    if compressed_data_size = 1 then (1, [10, 20, 30, 40] ++ uncompressed_data.drop 4, 4)
    else (1, uncompressed_data, 0)

/-- A handle as `initialize` makes it for `tiny` (4 bytes, method 0). -/
def tiny_handle : libfsapfs_compressed_data_handle_t :=
  { current_segment_offset := 0
    compressed_data_stream := some 1
    uncompressed_data_size := 4
    compression_method := 0
    compressed_data_stream_offset := -1
    compressed_segment_data := [0, 0, 0, 0]
    segment_data := [0, 0, 0, 0]
    segment_data_size := 0 }

/-- Values for the method identifiers, for the examples. -/
def example_definitions : Definitions :=
  { LIBFSAPFS_COMPRESSION_METHOD_NONE := 0
    LIBFSAPFS_COMPRESSION_METHOD_DEFLATE := 1
    LIBFSAPFS_COMPRESSION_METHOD_LZVN := 2 }

/-- Allocations that all succeed, for the examples; the fresh buffers are
shown with four bytes. -/
def example_allocations : Allocations :=
  { data_handle := true
    compressed_segment_data := some [0, 0, 0, 0]
    segment_data := some [0, 0, 0, 0] }

/-- A stream whose block 0 can be read (one byte) but is rejected by the
codec: `libfsapfs_decompress_data` returns `-1` on every input, after writing
the two bytes `99, 99` to the output buffer and setting the output size to
2. -/
def corrupt : Collaborators where
  libfdata_stream_read_buffer_at_offset := fun _ buffer _ offset =>
    if offset = 0 then (1, [9] ++ buffer.drop 1) else (0, buffer)
  libfsapfs_decompress_data := fun _ _ _ uncompressed_data _ =>
    (-1, [99, 99] ++ uncompressed_data.drop 2, 2)

/-- A stream that cannot be read: `libfdata_stream_read_buffer_at_offset`
returns `-1` at every offset. -/
def unreadable : Collaborators where
  libfdata_stream_read_buffer_at_offset := fun _ buffer _ _ => (-1, buffer)
  libfsapfs_decompress_data := fun _ _ _ uncompressed_data size => (1, uncompressed_data, size)

/-- The `memory_copy` calls in a trace. -/
def memory_copies (trace : List Event) : List Event :=
  trace.filter fun e =>
    match e with
    | .memory_copy _ _ _ => true
    | _ => false

/-- What the stream read of lines 300-307 gives for a handle: one block asked
for at the block index of the cursor, into the raw buffer of the handle. -/
def stream_read_result (env : Collaborators) (h : libfsapfs_compressed_data_handle_t) :
    Int × List Nat :=
  env.libfdata_stream_read_buffer_at_offset h.compressed_data_stream
    h.compressed_segment_data LIBFSAPFS_COMPRESSED_DATA_HANDLE_BLOCK_SIZE
    (Int.tdiv h.current_segment_offset LIBFSAPFS_COMPRESSED_DATA_HANDLE_BLOCK_SIZE)

/-- What the decode of lines 326-332 gives for a handle after that stream
read: the raw buffer as the read left it, `(size_t) read_count` bytes of it,
the method of the handle, the decoded buffer of the handle and a capacity of
one block. -/
def decompress_result (env : Collaborators) (h : libfsapfs_compressed_data_handle_t) :
    Int × List Nat × Nat :=
  env.libfsapfs_decompress_data (stream_read_result env h).2
    (size_t_of (stream_read_result env h).1) h.compression_method h.segment_data
    LIBFSAPFS_COMPRESSED_DATA_HANDLE_BLOCK_SIZE

/-- Two handles have the same stream reference, size and method. -/
def same_configuration (h h1 : libfsapfs_compressed_data_handle_t) : Prop :=
  h1.compressed_data_stream = h.compressed_data_stream
    ∧ h1.uncompressed_data_size = h.uncompressed_data_size
    ∧ h1.compression_method = h.compression_method

instance (h h1 : libfsapfs_compressed_data_handle_t) : Decidable (same_configuration h h1) := by
  unfold same_configuration; infer_instance

/-! ## Sequences of calls -/

/-- A call made on a handle: a read (with the bound on the executions of its
loop body) or a seek. -/
inductive Call where
  | read (fuel : Nat) (segment_index : Int) (segment_data : Option (List Nat))
      (segment_data_size : Nat)
  | seek (segment_index : Int) (segment_offset : Int)
  deriving DecidableEq, Repr

/-- The handle after a call.  A read that has not returned within its bound
hands over the handle as it stands at that point, so that the states inside a
read that does not return are covered as well. -/
def apply_call (env : Collaborators)
    (data_handle : Option libfsapfs_compressed_data_handle_t) :
    Call → Option libfsapfs_compressed_data_handle_t
  | .read fuel segment_index segment_data segment_data_size =>
    (libfsapfs_compressed_data_handle_read_segment_data env fuel data_handle segment_index
      segment_data segment_data_size).data_handle
  | .seek segment_index segment_offset =>
    (libfsapfs_compressed_data_handle_seek_segment_offset data_handle segment_index
      segment_offset).data_handle

/-- The handle after a sequence of calls, made one after the other. -/
def run_calls (env : Collaborators)
    (data_handle : Option libfsapfs_compressed_data_handle_t) (calls : List Call) :
    Option libfsapfs_compressed_data_handle_t :=
  calls.foldl (apply_call env) data_handle

/-- The `memory_copy` call an execution of lines 355-375 makes in a state:
from `data_offset` to `segment_data_offset`, of the clamped `read_size`. -/
def copy_event (s : ReadState) : Event :=
  Event.memory_copy s.segment_data_offset s.data_offset
    (if s.data_handle.segment_data_size - s.data_offset > s.segment_data_size
      then s.segment_data_size
      else s.data_handle.segment_data_size - s.data_offset)

/-! ## Lemmas on the loop body -/

theorem collaborator_calls_append (t u : List Event) :
    collaborator_calls (t ++ u) = collaborator_calls t ++ collaborator_calls u := by
  simp [collaborator_calls]

theorem copied_bytes_append (t u : List Event) :
    copied_bytes (t ++ u) = copied_bytes t + copied_bytes u := by
  induction t with
  | nil => simp [copied_bytes]
  | cons e t ih =>
    cases e <;> simp [copied_bytes, ih, Nat.add_assoc]

/-- A fetch that returns returns `-1`; it leaves the cursor, the caller's
buffer and the loop variables as they were. -/
theorem fetch_ret (env : Collaborators) (s s1 : ReadState) (v : Int) (e : Error)
    (h : read_segment_data_fetch env s = .ret v e s1) :
    v = -1
      ∧ (e = ⟨.INPUT_OUTPUT, .IO_ERROR_READ_FAILED⟩ ∨ e = ⟨.ENCRYPTION, .ENCRYPTION_ERROR_GENERIC⟩)
      ∧ s1.data_handle.current_segment_offset = s.data_handle.current_segment_offset
      ∧ s1.segment_data = s.segment_data
      ∧ copied_bytes s1.trace = copied_bytes s.trace := by
  unfold read_segment_data_fetch at h
  split at h
  · simp only at h
    split at h
    · injection h with h1 h2 h3
      subst h3
      simp [← h1, ← h2, copied_bytes_append, copied_bytes]
    · split at h
      · injection h with h1 h2 h3
        subst h3
        simp [← h1, ← h2, copied_bytes_append, copied_bytes]
      · cases h
  · cases h

/-- A fetch that falls through leaves the cursor, the caller's buffer and the
loop variables as they were, and the cached block is the one of
`data_stream_offset`. -/
theorem fetch_next (env : Collaborators) (s s1 : ReadState)
    (h : read_segment_data_fetch env s = .next s1) :
    s1.data_handle.compressed_data_stream_offset = s1.data_stream_offset
      ∧ s1.data_stream_offset = s.data_stream_offset
      ∧ s1.data_offset = s.data_offset
      ∧ s1.segment_data_size = s.segment_data_size
      ∧ s1.segment_data_offset = s.segment_data_offset
      ∧ s1.data_handle.current_segment_offset = s.data_handle.current_segment_offset
      ∧ s1.segment_data = s.segment_data
      ∧ copied_bytes s1.trace = copied_bytes s.trace := by
  unfold read_segment_data_fetch at h
  split at h
  · simp only at h
    split at h
    · cases h
    · split at h
      · cases h
      · injection h with h1
        subst h1
        simp [copied_bytes_append, copied_bytes]
  · rename_i hc
    injection h with h1
    subst h1
    simp only [ne_eq, Decidable.not_not] at hc
    simp [hc]

/-- On a cache hit the fetch does nothing. -/
theorem fetch_hit (env : Collaborators) (s : ReadState)
    (h : s.data_handle.compressed_data_stream_offset = s.data_stream_offset) :
    read_segment_data_fetch env s = .next s := by
  simp [read_segment_data_fetch, h]

/-- The copy step returns only through the bounds check: `-1`, a runtime
out-of-bounds error, nothing changed. -/
theorem copy_ret (s s1 : ReadState) (v : Int) (e : Error)
    (h : read_segment_data_copy s = .ret v e s1) :
    v = -1 ∧ e = ⟨.RUNTIME, .RUNTIME_ERROR_VALUE_OUT_OF_BOUNDS⟩ ∧ s1 = s
      ∧ s.data_handle.segment_data_size ≤ s.data_offset := by
  unfold read_segment_data_copy at h
  split at h
  · rename_i hc
    injection h with h1 h2 h3
    exact ⟨h1.symm, h2.symm, h3.symm, hc⟩
  · cases h

/-- The copy step falls through exactly when `data_offset` is inside the
valid bytes; it changes neither the loop variables nor the cache. -/
theorem copy_next (s s1 : ReadState) (h : read_segment_data_copy s = .next s1) :
    s.data_offset < s.data_handle.segment_data_size
      ∧ s1.segment_data_size = s.segment_data_size
      ∧ s1.segment_data_offset = s.segment_data_offset
      ∧ s1.data_stream_offset = s.data_stream_offset
      ∧ s1.data_offset = s.data_offset
      ∧ s1.data_handle.compressed_data_stream_offset
          = s.data_handle.compressed_data_stream_offset
      ∧ s1.data_handle.segment_data_size = s.data_handle.segment_data_size
      ∧ collaborator_calls s1.trace = collaborator_calls s.trace := by
  unfold read_segment_data_copy at h
  split at h
  · cases h
  · rename_i hc
    injection h with h1
    subst h1
    simp only [ge_iff_le, not_le] at hc
    simp [hc, collaborator_calls_append, collaborator_calls, read_segment_data_advance,
      read_segment_data_memory_copy]

/-- The body returns only `-1`, with an error, before any byte is copied and
with the cursor where it was. -/
theorem body_ret (env : Collaborators) (s s1 : ReadState) (v : Int) (e : Error)
    (h : read_segment_data_body env s = .ret v e s1) :
    v = -1
      ∧ s1.data_handle.current_segment_offset = s.data_handle.current_segment_offset
      ∧ s1.segment_data = s.segment_data
      ∧ copied_bytes s1.trace = copied_bytes s.trace := by
  unfold read_segment_data_body at h
  split at h
  · rename_i v0 e0 s0 hf
    injection h with h1 h2 h3
    subst h1 h2 h3
    obtain ⟨a, _, b, c, d⟩ := fetch_ret env s s0 v0 e0 hf
    exact ⟨a, b, c, d⟩
  · rename_i s0 hf
    obtain ⟨a, _, c, _⟩ := copy_ret s0 s1 v e h
    obtain ⟨_, _, _, _, _, f5, f6, f7⟩ := fetch_next env s s0 hf
    subst c
    exact ⟨a, f5, f6, f7⟩

/-- After an execution of the body that does not return, the loop variables
are what they were (the request that remains included) and the loop spins. -/
theorem body_next (env : Collaborators) (s s1 : ReadState)
    (h : read_segment_data_body env s = .next s1) :
    s1.segment_data_size = s.segment_data_size
      ∧ s1.segment_data_offset = s.segment_data_offset
      ∧ s1.data_stream_offset = s.data_stream_offset
      ∧ s1.data_offset = s.data_offset
      ∧ s1.data_handle.compressed_data_stream_offset = s1.data_stream_offset
      ∧ s1.data_offset < s1.data_handle.segment_data_size := by
  unfold read_segment_data_body at h
  split at h
  · cases h
  · rename_i s0 hf
    obtain ⟨f1, f2, f3, f4, f5, _, _, _⟩ := fetch_next env s s0 hf
    obtain ⟨c0, c1, c2, c3, c4, c5, c6, _⟩ := copy_next s0 s1 h
    refine ⟨c1.trans f4, c2.trans f5, c3.trans f2, c4.trans f3, ?_, ?_⟩
    · rw [c5, c3]; exact f1
    · rw [c4, c6]; exact c0

theorem body_next_spinning (env : Collaborators) (s s1 : ReadState)
    (hn : 0 < s.segment_data_size)
    (h : read_segment_data_body env s = .next s1) : Spinning s1 := by
  obtain ⟨a, _, _, _, e, f⟩ := body_next env s s1 h
  exact ⟨a ▸ hn, e, f⟩

/-- A spinning loop never returns, makes no call to the stream or the codec,
and keeps the request that remains. -/
theorem loop_spinning (env : Collaborators) (fuel : Nat) :
    ∀ s : ReadState, Spinning s →
      (read_segment_data_loop env fuel s).outcome = .out_of_fuel
        ∧ collaborator_calls (read_segment_data_loop env fuel s).trace
            = collaborator_calls s.trace := by
  induction fuel with
  | zero =>
    intro s hs
    simp [read_segment_data_loop, hs.1]
  | succ fuel ih =>
    intro s hs
    have hb : ∃ s1, read_segment_data_body env s = .next s1 := by
      cases hbody : read_segment_data_body env s with
      | next s1 => exact ⟨s1, rfl⟩
      | ret v e s1 =>
        exfalso
        unfold read_segment_data_body at hbody
        rw [fetch_hit env s hs.2.1] at hbody
        obtain ⟨_, _, _, hle⟩ := copy_ret s s1 v e hbody
        exact absurd hs.2.2 (not_lt.mpr hle)
    obtain ⟨s1, hs1⟩ := hb
    have hsp := body_next_spinning env s s1 hs.1 hs1
    have hcalls : collaborator_calls s1.trace = collaborator_calls s.trace := by
      unfold read_segment_data_body at hs1
      rw [fetch_hit env s hs.2.1] at hs1
      exact (copy_next s s1 hs1).2.2.2.2.2.2.2
    obtain ⟨i1, i2⟩ := ih s1 hsp
    simp only [read_segment_data_loop, hs.1, if_true, hs1]
    exact ⟨i1, i2.trans hcalls⟩

/-- Once the body has fallen through with a request that is not empty, the
run is out of fuel whatever the bound. -/
theorem loop_diverges_of_falls_through (env : Collaborators) (s : ReadState)
    (hn : 0 < s.segment_data_size)
    (hb : (read_segment_data_body env s).falls_through = true) (fuel : Nat) :
    (read_segment_data_loop env fuel s).outcome = .out_of_fuel := by
  cases fuel with
  | zero => simp [read_segment_data_loop, hn]
  | succ fuel =>
    cases hbody : read_segment_data_body env s with
    | ret v e s1 => simp [hbody, Step.falls_through] at hb
    | next s1 =>
      simp only [read_segment_data_loop, hn, if_true, hbody]
      exact (loop_spinning env fuel s1 (body_next_spinning env s s1 hn hbody)).1

/-- With valid arguments the function is the loop from the entry state. -/
theorem read_valid (env : Collaborators) (fuel : Nat)
    (h : libfsapfs_compressed_data_handle_t) (buffer : List Nat) (n : Nat)
    (hn : n ≤ SSIZE_MAX) :
    libfsapfs_compressed_data_handle_read_segment_data env fuel (some h) 0 (some buffer) n
      = read_segment_data_loop env fuel (read_segment_data_enter h buffer n) := by
  simp [libfsapfs_compressed_data_handle_read_segment_data, not_lt.mpr hn]

/-- A value in the range of `off64_t` is not changed by the conversion. -/
theorem int64_of_range (x : Int) (h : off64_range x) : int64_of x = x := by
  unfold off64_range at h
  unfold int64_of
  omega

/-- When the request is empty the loop is not entered: the function returns
`segment_data_offset` and adds it to the cursor. -/
theorem loop_zero (env : Collaborators) (fuel : Nat) (s : ReadState)
    (h : s.segment_data_size = 0) :
    read_segment_data_loop env fuel s
      = ⟨.returned (int64_of s.segment_data_offset) none,
          some { s.data_handle with
            current_segment_offset :=
              int64_of (s.data_handle.current_segment_offset + s.segment_data_offset) },
          some s.segment_data, s.trace⟩ := by
  cases fuel <;> simp [read_segment_data_loop, h]

/-- When the request is not empty the loop returns only out of its first
execution of the body: `-1` with an error, the cursor and the caller's buffer
as they were, no byte copied. -/
theorem loop_pos_returned (env : Collaborators) (fuel : Nat) (s : ReadState)
    (hn : 0 < s.segment_data_size) (v : Int) (e : Option Error)
    (h : (read_segment_data_loop env fuel s).outcome = .returned v e) :
    v = -1 ∧ e ≠ none
      ∧ (∃ h1, (read_segment_data_loop env fuel s).data_handle = some h1
          ∧ h1.current_segment_offset = s.data_handle.current_segment_offset)
      ∧ (read_segment_data_loop env fuel s).segment_data = some s.segment_data
      ∧ copied_bytes (read_segment_data_loop env fuel s).trace = copied_bytes s.trace := by
  cases fuel with
  | zero => simp [read_segment_data_loop, hn] at h
  | succ fuel =>
    cases hbody : read_segment_data_body env s with
    | ret v1 e1 s1 =>
      obtain ⟨a, b, c, d⟩ := body_ret env s s1 v1 e1 hbody
      simp only [read_segment_data_loop, hn, if_true, hbody] at h ⊢
      injection h with h1 h2
      subst h1 h2
      exact ⟨a, by simp, ⟨s1.data_handle, rfl, b⟩, by rw [c], d⟩
    | next s1 =>
      have hsp := (loop_spinning env fuel s1 (body_next_spinning env s s1 hn hbody)).1
      simp only [read_segment_data_loop, hn, if_true, hbody] at h
      rw [hsp] at h
      cases h

/-- While the cached block is the one of `data_stream_offset` the loop makes
no call to the stream or the codec. -/
theorem loop_hit_calls (env : Collaborators) (fuel : Nat) :
    ∀ s : ReadState,
      s.data_handle.compressed_data_stream_offset = s.data_stream_offset →
      collaborator_calls (read_segment_data_loop env fuel s).trace
        = collaborator_calls s.trace := by
  induction fuel with
  | zero =>
    intro s _
    by_cases hn : 0 < s.segment_data_size <;> simp [read_segment_data_loop, hn]
  | succ fuel ih =>
    intro s hs
    by_cases hn : 0 < s.segment_data_size
    · cases hbody : read_segment_data_body env s with
      | ret v e s1 =>
        unfold read_segment_data_body at hbody
        rw [fetch_hit env s hs] at hbody
        obtain ⟨_, _, c, _⟩ := copy_ret s s1 v e hbody
        simp only [read_segment_data_loop, hn, if_true]
        unfold read_segment_data_body
        rw [fetch_hit env s hs, hbody, c]
      | next s1 =>
        have hb := hbody
        unfold read_segment_data_body at hb
        rw [fetch_hit env s hs] at hb
        obtain ⟨_, _, _, c3, _, c5, _, c7⟩ := copy_next s s1 hb
        have hs1 : s1.data_handle.compressed_data_stream_offset = s1.data_stream_offset := by
          rw [c5, c3]; exact hs
        simp only [read_segment_data_loop, hn, if_true, hbody]
        exact (ih s1 hs1).trans c7
    · simp [read_segment_data_loop, hn]

/-- On a cache miss the first thing the fetch does is the read of the
underlying stream: one block, at `data_stream_offset`. -/
theorem fetch_miss_trace (env : Collaborators) (s : ReadState)
    (h : s.data_handle.compressed_data_stream_offset ≠ s.data_stream_offset) :
    ∃ rest, (read_segment_data_fetch env s).state.trace
      = s.trace ++ Event.stream_read s.data_handle.compressed_data_stream
          LIBFSAPFS_COMPRESSED_DATA_HANDLE_BLOCK_SIZE s.data_stream_offset :: rest := by
  unfold read_segment_data_fetch
  simp only [h, ne_eq, not_false_eq_true, if_true]
  split
  · exact ⟨[], by simp [Step.state]⟩
  · split
    · simp only [Step.state, List.append_assoc, List.singleton_append]
      exact ⟨_, rfl⟩
    · simp only [Step.state, List.append_assoc, List.singleton_append]
      exact ⟨_, rfl⟩

/-- The copy step only adds to the trace. -/
theorem copy_trace (s : ReadState) :
    ∃ rest, (read_segment_data_copy s).state.trace = s.trace ++ rest := by
  unfold read_segment_data_copy
  split
  · exact ⟨[], by simp [Step.state]⟩
  · simp only [Step.state, read_segment_data_advance, read_segment_data_memory_copy]
    exact ⟨_, rfl⟩

/-- On a cache miss the trace of the body continues with the stream read. -/
theorem body_miss_trace (env : Collaborators) (s : ReadState)
    (h : s.data_handle.compressed_data_stream_offset ≠ s.data_stream_offset) :
    ∃ rest, (read_segment_data_body env s).state.trace
      = s.trace ++ Event.stream_read s.data_handle.compressed_data_stream
          LIBFSAPFS_COMPRESSED_DATA_HANDLE_BLOCK_SIZE s.data_stream_offset :: rest := by
  obtain ⟨rest, hrest⟩ := fetch_miss_trace env s h
  unfold read_segment_data_body
  cases hf : read_segment_data_fetch env s with
  | ret v e s1 =>
    rw [hf] at hrest
    exact ⟨rest, hrest⟩
  | next s1 =>
    rw [hf] at hrest
    simp only [Step.state] at hrest
    obtain ⟨more, hmore⟩ := copy_trace s1
    refine ⟨rest ++ more, ?_⟩
    simp only [hmore, hrest, List.append_assoc, List.cons_append]

/-- The fetch only adds to the trace. -/
theorem fetch_trace (env : Collaborators) (s : ReadState) :
    ∃ rest, (read_segment_data_fetch env s).state.trace = s.trace ++ rest := by
  by_cases h : s.data_handle.compressed_data_stream_offset = s.data_stream_offset
  · rw [fetch_hit env s h]
    exact ⟨[], by simp [Step.state]⟩
  · obtain ⟨rest, hrest⟩ := fetch_miss_trace env s h
    exact ⟨_, hrest⟩

/-- The body only adds to the trace. -/
theorem body_trace (env : Collaborators) (s : ReadState) :
    ∃ rest, (read_segment_data_body env s).state.trace = s.trace ++ rest := by
  obtain ⟨rest, hrest⟩ := fetch_trace env s
  unfold read_segment_data_body
  cases hf : read_segment_data_fetch env s with
  | ret v e s1 =>
    rw [hf] at hrest
    exact ⟨rest, hrest⟩
  | next s1 =>
    rw [hf] at hrest
    simp only [Step.state] at hrest
    obtain ⟨more, hmore⟩ := copy_trace s1
    exact ⟨rest ++ more, by simp only [hmore, hrest, List.append_assoc]⟩

/-- The loop only adds to the trace. -/
theorem loop_trace (env : Collaborators) (fuel : Nat) :
    ∀ s : ReadState, ∃ rest, (read_segment_data_loop env fuel s).trace = s.trace ++ rest := by
  induction fuel with
  | zero =>
    intro s
    by_cases hn : 0 < s.segment_data_size <;>
      exact ⟨[], by simp [read_segment_data_loop, hn]⟩
  | succ fuel ih =>
    intro s
    by_cases hn : 0 < s.segment_data_size
    · have hprefix := body_trace env s
      obtain ⟨rest, hrest⟩ := hprefix
      cases hbody : read_segment_data_body env s with
      | ret v e s1 =>
        rw [hbody] at hrest
        simp only [read_segment_data_loop, hn, if_true, hbody]
        exact ⟨rest, hrest⟩
      | next s1 =>
        rw [hbody] at hrest
        simp only [Step.state] at hrest
        obtain ⟨more, hmore⟩ := ih s1
        simp only [read_segment_data_loop, hn, if_true, hbody]
        exact ⟨rest ++ more, by rw [hmore, hrest, List.append_assoc]⟩
    · exact ⟨[], by simp [read_segment_data_loop, hn]⟩

/-- A read of one or more bytes that starts on a cache miss begins with the
read of the underlying stream, whatever happens afterwards. -/
theorem loop_miss_first_event (env : Collaborators) (fuel : Nat) (s : ReadState)
    (hn : 0 < s.segment_data_size) (ht : s.trace = [])
    (h : s.data_handle.compressed_data_stream_offset ≠ s.data_stream_offset) :
    (read_segment_data_loop env (fuel + 1) s).trace.head?
      = some (Event.stream_read s.data_handle.compressed_data_stream
          LIBFSAPFS_COMPRESSED_DATA_HANDLE_BLOCK_SIZE s.data_stream_offset) := by
  obtain ⟨rest, hrest⟩ := body_miss_trace env s h
  rw [ht] at hrest
  cases hbody : read_segment_data_body env s with
  | ret v e s1 =>
    rw [hbody] at hrest
    simp only [Step.state] at hrest
    simp only [read_segment_data_loop, hn, if_true, hbody, hrest]
    simp
  | next s1 =>
    rw [hbody] at hrest
    simp only [Step.state] at hrest
    obtain ⟨more, hmore⟩ := loop_trace env fuel s1
    simp only [read_segment_data_loop, hn, if_true, hbody, hmore, hrest]
    simp

/-- A property of the variables that the fetch and the copy step keep holds
at the end of a run of the loop; the function may still add
`segment_data_offset` to the cursor on its way out. -/
theorem loop_invariant (env : Collaborators) (Q : ReadState → Prop)
    (hf : ∀ s, Q s → Q (read_segment_data_fetch env s).state)
    (hc : ∀ s, Q s → Q (read_segment_data_copy s).state) (fuel : Nat) :
    ∀ s : ReadState, Q s →
      ∃ s1 c, Q s1
        ∧ (read_segment_data_loop env fuel s).data_handle
            = some { s1.data_handle with current_segment_offset := c }
        ∧ (read_segment_data_loop env fuel s).segment_data = some s1.segment_data
        ∧ (read_segment_data_loop env fuel s).trace = s1.trace := by
  induction fuel with
  | zero =>
    intro s hs
    by_cases hn : 0 < s.segment_data_size
    · exact ⟨s, s.data_handle.current_segment_offset, hs,
        by simp [read_segment_data_loop, hn], by simp [read_segment_data_loop, hn],
        by simp [read_segment_data_loop, hn]⟩
    · exact ⟨s, _, hs, by simp [read_segment_data_loop, hn]; rfl,
        by simp [read_segment_data_loop, hn], by simp [read_segment_data_loop, hn]⟩
  | succ fuel ih =>
    intro s hs
    by_cases hn : 0 < s.segment_data_size
    · have hq1 := hf s hs
      cases hfetch : read_segment_data_fetch env s with
      | ret v e s1 =>
        rw [hfetch] at hq1
        simp only [Step.state] at hq1
        refine ⟨s1, s1.data_handle.current_segment_offset, hq1, ?_, ?_, ?_⟩ <;>
          simp [read_segment_data_loop, hn, read_segment_data_body, hfetch]
      | next s1 =>
        rw [hfetch] at hq1
        simp only [Step.state] at hq1
        have hq2 := hc s1 hq1
        cases hcopy : read_segment_data_copy s1 with
        | ret v e s2 =>
          rw [hcopy] at hq2
          simp only [Step.state] at hq2
          refine ⟨s2, s2.data_handle.current_segment_offset, hq2, ?_, ?_, ?_⟩ <;>
            simp [read_segment_data_loop, hn, read_segment_data_body, hfetch, hcopy]
        | next s2 =>
          rw [hcopy] at hq2
          simp only [Step.state] at hq2
          obtain ⟨s3, c, h3, h4, h5, h6⟩ := ih s2 hq2
          refine ⟨s3, c, h3, ?_, ?_, ?_⟩ <;>
            simp [read_segment_data_loop, hn, read_segment_data_body, hfetch, hcopy, h4, h5, h6]
    · exact ⟨s, _, hs, by simp [read_segment_data_loop, hn]; rfl,
        by simp [read_segment_data_loop, hn], by simp [read_segment_data_loop, hn]⟩

/-- The fetch changes neither the stream reference, nor the size, nor the
method, nor the cursor, nor the loop variables. -/
theorem fetch_state_frame (env : Collaborators) (s : ReadState) :
    (read_segment_data_fetch env s).state.data_handle.compressed_data_stream
        = s.data_handle.compressed_data_stream
      ∧ (read_segment_data_fetch env s).state.data_handle.uncompressed_data_size
        = s.data_handle.uncompressed_data_size
      ∧ (read_segment_data_fetch env s).state.data_handle.compression_method
        = s.data_handle.compression_method
      ∧ (read_segment_data_fetch env s).state.data_handle.current_segment_offset
        = s.data_handle.current_segment_offset
      ∧ (read_segment_data_fetch env s).state.data_stream_offset = s.data_stream_offset
      ∧ (read_segment_data_fetch env s).state.data_offset = s.data_offset
      ∧ (read_segment_data_fetch env s).state.segment_data_size = s.segment_data_size
      ∧ (read_segment_data_fetch env s).state.segment_data_offset = s.segment_data_offset
      ∧ (read_segment_data_fetch env s).state.segment_data = s.segment_data := by
  unfold read_segment_data_fetch
  split
  · simp only
    split
    · simp [Step.state]
    · split <;> simp [Step.state]
  · simp [Step.state]

/-- The copy step changes nothing of the handle but the cursor, and none of
the loop variables but `read_size`. -/
theorem copy_state_frame (s : ReadState) :
    (read_segment_data_copy s).state.data_handle
        = { s.data_handle with
            current_segment_offset :=
              (read_segment_data_copy s).state.data_handle.current_segment_offset }
      ∧ (read_segment_data_copy s).state.data_stream_offset = s.data_stream_offset
      ∧ (read_segment_data_copy s).state.data_offset = s.data_offset
      ∧ (read_segment_data_copy s).state.segment_data_size = s.segment_data_size
      ∧ (read_segment_data_copy s).state.segment_data_offset = s.segment_data_offset := by
  unfold read_segment_data_copy
  split <;>
    simp [Step.state, read_segment_data_advance, read_segment_data_memory_copy]

/-- The first execution of the body decides a run on a request that is not
empty: what the loop gives with a bound of one or more is what the fetch left
when the fetch returned, what the fetch left with a runtime out-of-bounds error
when the bounds check failed, and a run that spins otherwise. -/
theorem loop_first_fetch_ret (env : Collaborators) (fuel : Nat) (s s1 : ReadState)
    (v : Int) (e : Error) (hn : 0 < s.segment_data_size)
    (hf : read_segment_data_fetch env s = .ret v e s1) :
    read_segment_data_loop env (fuel + 1) s
      = ⟨.returned v (some e), some s1.data_handle, some s1.segment_data, s1.trace⟩ := by
  simp [read_segment_data_loop, hn, read_segment_data_body, hf]

theorem loop_first_guard (env : Collaborators) (fuel : Nat) (s s1 : ReadState)
    (hn : 0 < s.segment_data_size)
    (hf : read_segment_data_fetch env s = .next s1)
    (hge : s1.data_handle.segment_data_size ≤ s1.data_offset) :
    read_segment_data_loop env (fuel + 1) s
      = ⟨.returned (-1) (some ⟨.RUNTIME, .RUNTIME_ERROR_VALUE_OUT_OF_BOUNDS⟩),
          some s1.data_handle, some s1.segment_data, s1.trace⟩ := by
  have hge1 : s1.data_offset ≥ s1.data_handle.segment_data_size := hge
  simp [read_segment_data_loop, hn, read_segment_data_body, hf, read_segment_data_copy, hge1]

/-- The fetch on a cache miss, written out: the stream read, and when it does
not fail the decode. -/
theorem fetch_miss (env : Collaborators) (s : ReadState)
    (h : s.data_handle.compressed_data_stream_offset ≠ s.data_stream_offset) :
    read_segment_data_fetch env s
      = (if (env.libfdata_stream_read_buffer_at_offset s.data_handle.compressed_data_stream
              s.data_handle.compressed_segment_data
              LIBFSAPFS_COMPRESSED_DATA_HANDLE_BLOCK_SIZE s.data_stream_offset).1 < 0 then
          .ret (-1) ⟨.INPUT_OUTPUT, .IO_ERROR_READ_FAILED⟩
            { s with
              read_count := (env.libfdata_stream_read_buffer_at_offset
                s.data_handle.compressed_data_stream s.data_handle.compressed_segment_data
                LIBFSAPFS_COMPRESSED_DATA_HANDLE_BLOCK_SIZE s.data_stream_offset).1
              data_handle :=
                { s.data_handle with
                  compressed_segment_data := (env.libfdata_stream_read_buffer_at_offset
                    s.data_handle.compressed_data_stream s.data_handle.compressed_segment_data
                    LIBFSAPFS_COMPRESSED_DATA_HANDLE_BLOCK_SIZE s.data_stream_offset).2 }
              trace := s.trace ++ [Event.stream_read s.data_handle.compressed_data_stream
                LIBFSAPFS_COMPRESSED_DATA_HANDLE_BLOCK_SIZE s.data_stream_offset] }
        else
          (if (env.libfsapfs_decompress_data
                (env.libfdata_stream_read_buffer_at_offset s.data_handle.compressed_data_stream
                  s.data_handle.compressed_segment_data
                  LIBFSAPFS_COMPRESSED_DATA_HANDLE_BLOCK_SIZE s.data_stream_offset).2
                (size_t_of (env.libfdata_stream_read_buffer_at_offset
                  s.data_handle.compressed_data_stream s.data_handle.compressed_segment_data
                  LIBFSAPFS_COMPRESSED_DATA_HANDLE_BLOCK_SIZE s.data_stream_offset).1)
                s.data_handle.compression_method s.data_handle.segment_data
                LIBFSAPFS_COMPRESSED_DATA_HANDLE_BLOCK_SIZE).1 ≠ 1 then
            Step.ret (-1) ⟨.ENCRYPTION, .ENCRYPTION_ERROR_GENERIC⟩
          else Step.next)
            { s with
              read_count := (env.libfdata_stream_read_buffer_at_offset
                s.data_handle.compressed_data_stream s.data_handle.compressed_segment_data
                LIBFSAPFS_COMPRESSED_DATA_HANDLE_BLOCK_SIZE s.data_stream_offset).1
              data_handle :=
                { s.data_handle with
                  compressed_data_stream_offset := s.data_stream_offset
                  compressed_segment_data := (env.libfdata_stream_read_buffer_at_offset
                    s.data_handle.compressed_data_stream s.data_handle.compressed_segment_data
                    LIBFSAPFS_COMPRESSED_DATA_HANDLE_BLOCK_SIZE s.data_stream_offset).2
                  segment_data := (env.libfsapfs_decompress_data
                    (env.libfdata_stream_read_buffer_at_offset
                      s.data_handle.compressed_data_stream
                      s.data_handle.compressed_segment_data
                      LIBFSAPFS_COMPRESSED_DATA_HANDLE_BLOCK_SIZE s.data_stream_offset).2
                    (size_t_of (env.libfdata_stream_read_buffer_at_offset
                      s.data_handle.compressed_data_stream
                      s.data_handle.compressed_segment_data
                      LIBFSAPFS_COMPRESSED_DATA_HANDLE_BLOCK_SIZE s.data_stream_offset).1)
                    s.data_handle.compression_method s.data_handle.segment_data
                    LIBFSAPFS_COMPRESSED_DATA_HANDLE_BLOCK_SIZE).2.1
                  segment_data_size := (env.libfsapfs_decompress_data
                    (env.libfdata_stream_read_buffer_at_offset
                      s.data_handle.compressed_data_stream
                      s.data_handle.compressed_segment_data
                      LIBFSAPFS_COMPRESSED_DATA_HANDLE_BLOCK_SIZE s.data_stream_offset).2
                    (size_t_of (env.libfdata_stream_read_buffer_at_offset
                      s.data_handle.compressed_data_stream
                      s.data_handle.compressed_segment_data
                      LIBFSAPFS_COMPRESSED_DATA_HANDLE_BLOCK_SIZE s.data_stream_offset).1)
                    s.data_handle.compression_method s.data_handle.segment_data
                    LIBFSAPFS_COMPRESSED_DATA_HANDLE_BLOCK_SIZE).2.2 }
              trace := s.trace
                ++ [Event.stream_read s.data_handle.compressed_data_stream
                  LIBFSAPFS_COMPRESSED_DATA_HANDLE_BLOCK_SIZE s.data_stream_offset]
                ++ [Event.decompress
                  (env.libfdata_stream_read_buffer_at_offset s.data_handle.compressed_data_stream
                    s.data_handle.compressed_segment_data
                    LIBFSAPFS_COMPRESSED_DATA_HANDLE_BLOCK_SIZE s.data_stream_offset).2
                  (size_t_of (env.libfdata_stream_read_buffer_at_offset
                    s.data_handle.compressed_data_stream s.data_handle.compressed_segment_data
                    LIBFSAPFS_COMPRESSED_DATA_HANDLE_BLOCK_SIZE s.data_stream_offset).1)
                  s.data_handle.compression_method
                  LIBFSAPFS_COMPRESSED_DATA_HANDLE_BLOCK_SIZE] }) := by
  unfold read_segment_data_fetch
  simp only [h, ne_eq, not_false_eq_true, if_true]
  split
  · rfl
  · split <;> rfl

/-- The fetch makes no `memory_copy`. -/
theorem fetch_state_copies (env : Collaborators) (s : ReadState) :
    memory_copies (read_segment_data_fetch env s).state.trace = memory_copies s.trace := by
  unfold read_segment_data_fetch
  split
  · simp only
    split
    · simp [Step.state, memory_copies]
    · split <;> simp [Step.state, memory_copies]
  · simp [Step.state]

/-- After a fetch that fell through, the rest of the run is the run from the
state the fetch left. -/
theorem loop_after_fetch (env : Collaborators) (fuel : Nat) (s s1 : ReadState)
    (hn : 0 < s.segment_data_size) (hf : read_segment_data_fetch env s = .next s1) :
    read_segment_data_loop env (fuel + 1) s = read_segment_data_loop env (fuel + 1) s1 := by
  obtain ⟨hhit, _, _, hsize, _⟩ := fetch_next env s s1 hf
  have hn1 : 0 < s1.segment_data_size := hsize ▸ hn
  simp [read_segment_data_loop, hn, hn1, read_segment_data_body, hf, fetch_hit env s1 hhit]

/-- With a bound of one or more and a request that is not empty, the calls to
the stream and the codec in a run are those of the first fetch. -/
theorem loop_first_calls (env : Collaborators) (fuel : Nat) (s : ReadState)
    (hn : 0 < s.segment_data_size) :
    collaborator_calls (read_segment_data_loop env (fuel + 1) s).trace
      = collaborator_calls (read_segment_data_fetch env s).state.trace := by
  cases hf : read_segment_data_fetch env s with
  | ret v e s1 => rw [loop_first_fetch_ret env fuel s s1 v e hn hf]; rfl
  | next s1 =>
    rw [loop_after_fetch env fuel s s1 hn hf]
    exact loop_hit_calls env (fuel + 1) s1 (fetch_next env s s1 hf).1

/-- On a cache hit a run changes nothing of the handle but the cursor. -/
theorem loop_hit_frame (env : Collaborators) (fuel : Nat) (s : ReadState)
    (hhit : s.data_handle.compressed_data_stream_offset = s.data_stream_offset) :
    ∃ c, (read_segment_data_loop env fuel s).data_handle
      = some { s.data_handle with current_segment_offset := c } := by
  obtain ⟨s1, c, ⟨_, c1, h1⟩, h2, _, _⟩ :=
    loop_invariant env
      (fun t => t.data_handle.compressed_data_stream_offset = t.data_stream_offset
        ∧ ∃ c, t.data_handle = { s.data_handle with current_segment_offset := c })
      (fun t ht => by rw [fetch_hit env t ht.1]; exact ht)
      (fun t ht => by
        obtain ⟨a, b, _⟩ := copy_state_frame t
        obtain ⟨ht1, c, ht2⟩ := ht
        refine ⟨?_, (read_segment_data_copy t).state.data_handle.current_segment_offset, ?_⟩
        · rw [a, b]; exact ht1
        · rw [a, ht2])
      fuel s ⟨hhit, s.data_handle.current_segment_offset, rfl⟩
  exact ⟨c, by rw [h2, h1]⟩

/-- A run keeps the stream reference, the size and the method of the
handle. -/
theorem loop_configuration (env : Collaborators) (fuel : Nat) (s : ReadState) :
    ∃ h1, (read_segment_data_loop env fuel s).data_handle = some h1
      ∧ same_configuration s.data_handle h1 := by
  obtain ⟨s1, c, h1, h2, _, _⟩ :=
    loop_invariant env (fun t => same_configuration s.data_handle t.data_handle)
      (fun t ht => by
        obtain ⟨a, b, c, _⟩ := fetch_state_frame env t
        exact ⟨a.trans ht.1, b.trans ht.2.1, c.trans ht.2.2⟩)
      (fun t ht => by
        obtain ⟨a, _⟩ := copy_state_frame t
        rw [a]; exact ht)
      fuel s ⟨rfl, rfl, rfl⟩
  exact ⟨_, h2, h1⟩

/-- Every call of the codec in a run that starts with an empty trace is made
with the method of the handle. -/
theorem loop_decompress_method (env : Collaborators) (fuel : Nat) (s : ReadState)
    (ht : s.trace = []) :
    ∀ cd cs m cap, Event.decompress cd cs m cap ∈ (read_segment_data_loop env fuel s).trace →
      m = s.data_handle.compression_method := by
  obtain ⟨s1, c, h1, _, _, h4⟩ :=
    loop_invariant env
      (fun t => t.data_handle.compression_method = s.data_handle.compression_method
        ∧ ∀ cd cs m cap, Event.decompress cd cs m cap ∈ t.trace →
            m = s.data_handle.compression_method)
      (fun t ht => by
        obtain ⟨hm, hev⟩ := ht
        refine ⟨(fetch_state_frame env t).2.2.1.trans hm, ?_⟩
        intro cd cs m cap hmem
        by_cases hhit : t.data_handle.compressed_data_stream_offset = t.data_stream_offset
        · rw [fetch_hit env t hhit] at hmem
          exact hev cd cs m cap hmem
        · rw [fetch_miss env t hhit] at hmem
          split at hmem
          · simp only [Step.state, List.mem_append, List.mem_singleton] at hmem
            rcases hmem with hmem | hmem
            · exact hev cd cs m cap hmem
            · cases hmem
          · split at hmem <;>
            · simp only [Step.state, List.mem_append, List.mem_singleton] at hmem
              rcases hmem with (hmem | hmem) | hmem
              · exact hev cd cs m cap hmem
              · cases hmem
              · injection hmem with _ _ h3 _
                rw [h3]; exact hm)
      (fun t ht => by
        obtain ⟨hm, hev⟩ := ht
        obtain ⟨a, _⟩ := copy_state_frame t
        refine ⟨by rw [a]; exact hm, ?_⟩
        intro cd cs m cap hmem
        unfold read_segment_data_copy at hmem
        split at hmem
        · exact hev cd cs m cap hmem
        · simp only [Step.state, read_segment_data_advance, read_segment_data_memory_copy,
            List.mem_append, List.mem_singleton] at hmem
          rcases hmem with hmem | hmem
          · exact hev cd cs m cap hmem
          · cases hmem)
      fuel s ⟨rfl, by simp [ht]⟩
  intro cd cs m cap hmem
  rw [h4] at hmem
  exact h1.2 cd cs m cap hmem

/-- A read keeps the stream reference, the size and the method of the handle,
however it ends. -/
theorem read_configuration (env : Collaborators) (fuel : Nat)
    (h : libfsapfs_compressed_data_handle_t) (segment_index : Int)
    (segment_data : Option (List Nat)) (n : Nat) :
    ∃ h1, (libfsapfs_compressed_data_handle_read_segment_data env fuel (some h)
        segment_index segment_data n).data_handle = some h1
      ∧ same_configuration h h1 := by
  unfold libfsapfs_compressed_data_handle_read_segment_data
  simp only
  split
  · exact ⟨h, rfl, rfl, rfl, rfl⟩
  · split
    · exact ⟨h, rfl, rfl, rfl, rfl⟩
    · split
      · exact ⟨h, rfl, rfl, rfl, rfl⟩
      · exact loop_configuration env fuel (read_segment_data_enter h _ n)

/-- A seek keeps the stream reference, the size and the method of the
handle. -/
theorem seek_configuration (h : libfsapfs_compressed_data_handle_t)
    (segment_index segment_offset : Int) :
    ∃ h1, (libfsapfs_compressed_data_handle_seek_segment_offset (some h) segment_index
        segment_offset).data_handle = some h1
      ∧ same_configuration h h1 := by
  unfold libfsapfs_compressed_data_handle_seek_segment_offset
  simp only
  split
  · exact ⟨h, rfl, rfl, rfl, rfl⟩
  · split <;> exact ⟨_, rfl, rfl, rfl, rfl⟩

/-- A sequence of calls keeps the stream reference, the size and the method
of the handle. -/
theorem run_calls_configuration (env : Collaborators) (calls : List Call) :
    ∀ h : libfsapfs_compressed_data_handle_t,
      ∃ h1, run_calls env (some h) calls = some h1 ∧ same_configuration h h1 := by
  induction calls with
  | nil => intro h; exact ⟨h, rfl, rfl, rfl, rfl⟩
  | cons call calls ih =>
    intro h
    have hstep : ∃ h1, apply_call env (some h) call = some h1 ∧ same_configuration h h1 := by
      cases call with
      | read fuel segment_index segment_data n =>
        exact read_configuration env fuel h segment_index segment_data n
      | seek segment_index segment_offset =>
        exact seek_configuration h segment_index segment_offset
    obtain ⟨h1, hh1, hc1⟩ := hstep
    obtain ⟨h2, hh2, hc2⟩ := ih h1
    refine ⟨h2, ?_, hc2.1.trans hc1.1, hc2.2.1.trans hc1.2.1, hc2.2.2.trans hc1.2.2⟩
    simp only [run_calls, List.foldl_cons, hh1]
    exact hh2

/-- Every call of the codec a read makes is made with the method of the
handle. -/
theorem read_decompress_method (env : Collaborators) (fuel : Nat)
    (h : libfsapfs_compressed_data_handle_t) (segment_index : Int)
    (segment_data : Option (List Nat)) (n : Nat) :
    ∀ cd cs m cap,
      Event.decompress cd cs m cap
        ∈ (libfsapfs_compressed_data_handle_read_segment_data env fuel (some h)
            segment_index segment_data n).trace →
      m = h.compression_method := by
  unfold libfsapfs_compressed_data_handle_read_segment_data
  simp only
  split
  · intro cd cs m cap hmem; cases hmem
  · split
    · intro cd cs m cap hmem; cases hmem
    · split
      · intro cd cs m cap hmem; cases hmem
      · exact loop_decompress_method env fuel (read_segment_data_enter h _ n) rfl

/-- On a cache hit every `memory_copy` of a run is one the trace had
already or the copy of the state the run started in, and the latter only when
`data_offset` lies inside the valid bytes. -/
theorem loop_hit_copies (env : Collaborators) (fuel : Nat) (s : ReadState)
    (hhit : s.data_handle.compressed_data_stream_offset = s.data_stream_offset) :
    ∀ e ∈ memory_copies (read_segment_data_loop env fuel s).trace,
      e ∈ memory_copies s.trace
        ∨ (e = copy_event s ∧ s.data_offset < s.data_handle.segment_data_size) := by
  obtain ⟨s1, c, h1, _, _, h4⟩ :=
    loop_invariant env
      (fun t => t.data_handle.compressed_data_stream_offset = t.data_stream_offset
        ∧ copy_event t = copy_event s
        ∧ t.data_offset = s.data_offset
        ∧ t.data_handle.segment_data_size = s.data_handle.segment_data_size
        ∧ ∀ e ∈ memory_copies t.trace,
            e ∈ memory_copies s.trace
              ∨ (e = copy_event s ∧ s.data_offset < s.data_handle.segment_data_size))
      (fun t ht => by rw [fetch_hit env t ht.1]; exact ht)
      (fun t ht => by
        obtain ⟨ht1, ht2, ht3, ht4, ht5⟩ := ht
        obtain ⟨a, b, c, d, e⟩ := copy_state_frame t
        have hsds : (read_segment_data_copy t).state.data_handle.segment_data_size
            = t.data_handle.segment_data_size := by rw [a]
        have hcached : (read_segment_data_copy t).state.data_handle.compressed_data_stream_offset
            = t.data_handle.compressed_data_stream_offset := by rw [a]
        refine ⟨by rw [hcached, b]; exact ht1, ?_, c.trans ht3, hsds.trans ht4, ?_⟩
        · rw [← ht2]
          simp only [copy_event, hsds, c, d, e]
        · intro ev hev
          unfold read_segment_data_copy at hev
          split at hev
          · exact ht5 ev hev
          · rename_i hlt
            simp only [Step.state, read_segment_data_advance, read_segment_data_memory_copy,
              memory_copies, List.filter_append, List.mem_append] at hev
            rcases hev with hev | hev
            · exact ht5 ev hev
            · simp only [List.filter_cons, List.filter_nil, if_true, List.mem_singleton] at hev
              right
              refine ⟨?_, ?_⟩
              · rw [hev, ← ht2]
                rfl
              · rw [← ht3, ← ht4]
                exact not_le.mp hlt)
      fuel s ⟨hhit, rfl, rfl, rfl, fun e he => Or.inl he⟩
  intro e he
  rw [h4] at he
  exact h1.2.2.2.2 e he

/-- Every `memory_copy` of a read copies one byte or more, from inside the
valid bytes of the decoded buffer as the handle has them after the call, to
inside the requested size of the caller's buffer. -/
theorem read_copies (env : Collaborators) (fuel : Nat)
    (h : libfsapfs_compressed_data_handle_t) (segment_index : Int)
    (segment_data : Option (List Nat)) (n : Nat) (d src z : Nat)
    (hmem : Event.memory_copy d src z
      ∈ (libfsapfs_compressed_data_handle_read_segment_data env fuel (some h)
          segment_index segment_data n).trace) :
    ∃ h1, (libfsapfs_compressed_data_handle_read_segment_data env fuel (some h)
        segment_index segment_data n).data_handle = some h1
      ∧ 1 ≤ z ∧ src + z ≤ h1.segment_data_size ∧ d + z ≤ n := by
  by_cases hidx : segment_index = 0
  · subst hidx
    rcases segment_data with _ | buffer
    · simp [libfsapfs_compressed_data_handle_read_segment_data] at hmem
    · by_cases hmax : n ≤ SSIZE_MAX
      · rw [read_valid _ _ _ _ _ hmax] at hmem ⊢
        by_cases hn : 0 < n
        · have hpos : 0 < (read_segment_data_enter h buffer n).segment_data_size := hn
          cases fuel with
          | zero => simp [read_segment_data_loop, read_segment_data_enter, hn] at hmem
          | succ fuel =>
            have hcopies := fetch_state_copies env (read_segment_data_enter h buffer n)
            have hmem1 : Event.memory_copy d src z
                ∈ memory_copies (read_segment_data_loop env (fuel + 1)
                    (read_segment_data_enter h buffer n)).trace := by
              simp only [memory_copies, List.mem_filter]
              exact ⟨hmem, trivial⟩
            cases hf : read_segment_data_fetch env (read_segment_data_enter h buffer n) with
            | ret v e s1 =>
              rw [hf] at hcopies
              rw [loop_first_fetch_ret env fuel _ s1 v e hpos hf] at hmem1
              simp only [Step.state] at hcopies
              simp only [hcopies] at hmem1
              simp [memory_copies, read_segment_data_enter] at hmem1
            | next s1 =>
              rw [hf] at hcopies
              simp only [Step.state] at hcopies
              obtain ⟨hhit, _, _, hsize, hsdo, _⟩ := fetch_next env _ s1 hf
              rw [loop_after_fetch env fuel _ s1 hpos hf] at hmem1 ⊢
              obtain ⟨c, hc⟩ := loop_hit_frame env (fuel + 1) s1 hhit
              refine ⟨_, hc, ?_⟩
              rcases loop_hit_copies env (fuel + 1) s1 hhit _ hmem1 with hold | ⟨hev, hlt⟩
              · rw [hcopies] at hold
                simp [memory_copies, read_segment_data_enter] at hold
              · have hsize1 : s1.segment_data_size = n := hsize
                have hsdo1 : s1.segment_data_offset = 0 := hsdo
                simp only [copy_event, hsize1, hsdo1] at hev
                injection hev with h1 h2 h3
                subst h1 h2
                simp only
                split at h3 <;> omega
        · have hz : (read_segment_data_enter h buffer n).segment_data_size = 0 := by
            simp only [read_segment_data_enter]; omega
          rw [loop_zero env fuel _ hz] at hmem
          simp [read_segment_data_enter] at hmem
      · simp [libfsapfs_compressed_data_handle_read_segment_data, not_le.mp hmax] at hmem
  · simp [libfsapfs_compressed_data_handle_read_segment_data, hidx] at hmem

/-- When the codec, given a capacity of one block, reports no more than one
block, a read keeps the valid decoded length within one block. -/
theorem read_bound (env : Collaborators)
    (hcodec : ∀ a b c d,
      (env.libfsapfs_decompress_data a b c d LIBFSAPFS_COMPRESSED_DATA_HANDLE_BLOCK_SIZE).2.2
        ≤ LIBFSAPFS_COMPRESSED_DATA_HANDLE_BLOCK_SIZE)
    (fuel : Nat) (h : libfsapfs_compressed_data_handle_t) (segment_index : Int)
    (segment_data : Option (List Nat)) (n : Nat)
    (hb : h.segment_data_size ≤ LIBFSAPFS_COMPRESSED_DATA_HANDLE_BLOCK_SIZE) :
    ∀ h1, (libfsapfs_compressed_data_handle_read_segment_data env fuel (some h)
        segment_index segment_data n).data_handle = some h1 →
      h1.segment_data_size ≤ LIBFSAPFS_COMPRESSED_DATA_HANDLE_BLOCK_SIZE := by
  intro h1 hh1
  unfold libfsapfs_compressed_data_handle_read_segment_data at hh1
  simp only at hh1
  split at hh1
  · cases hh1; exact hb
  · split at hh1
    · cases hh1; exact hb
    · split at hh1
      · cases hh1; exact hb
      · rename_i buffer _
        obtain ⟨s1, c, hq, h2, _, _⟩ :=
          loop_invariant env
            (fun t => t.data_handle.segment_data_size
              ≤ LIBFSAPFS_COMPRESSED_DATA_HANDLE_BLOCK_SIZE)
            (fun t ht => by
              by_cases hhit : t.data_handle.compressed_data_stream_offset = t.data_stream_offset
              · rw [fetch_hit env t hhit]; exact ht
              · rw [fetch_miss env t hhit]
                split
                · exact ht
                · split <;> exact hcodec _ _ _ _)
            (fun t ht => by
              obtain ⟨a, _⟩ := copy_state_frame t
              rw [a]; exact ht)
            fuel (read_segment_data_enter h buffer n) hb
        rw [h2] at hh1
        cases hh1
        exact hq

/-- A sequence of calls keeps the valid decoded length within one block, under
the same condition on the codec. -/
theorem run_calls_bound (env : Collaborators)
    (hcodec : ∀ a b c d,
      (env.libfsapfs_decompress_data a b c d LIBFSAPFS_COMPRESSED_DATA_HANDLE_BLOCK_SIZE).2.2
        ≤ LIBFSAPFS_COMPRESSED_DATA_HANDLE_BLOCK_SIZE)
    (calls : List Call) :
    ∀ h : libfsapfs_compressed_data_handle_t,
      h.segment_data_size ≤ LIBFSAPFS_COMPRESSED_DATA_HANDLE_BLOCK_SIZE →
      ∀ h1, run_calls env (some h) calls = some h1 →
        h1.segment_data_size ≤ LIBFSAPFS_COMPRESSED_DATA_HANDLE_BLOCK_SIZE := by
  induction calls with
  | nil =>
    intro h hb h1 hh1
    cases hh1
    exact hb
  | cons call calls ih =>
    intro h hb h1 hh1
    simp only [run_calls, List.foldl_cons] at hh1
    cases call with
    | read fuel segment_index segment_data n =>
      obtain ⟨h2, hh2, _⟩ := read_configuration env fuel h segment_index segment_data n
      have hb2 := read_bound env hcodec fuel h segment_index segment_data n hb h2 hh2
      simp only [apply_call, hh2] at hh1
      exact ih h2 hb2 h1 hh1
    | seek segment_index segment_offset =>
      obtain ⟨h2, hh2, _⟩ := seek_configuration h segment_index segment_offset
      have hb2 : h2.segment_data_size ≤ LIBFSAPFS_COMPRESSED_DATA_HANDLE_BLOCK_SIZE := by
        unfold libfsapfs_compressed_data_handle_seek_segment_offset at hh2
        simp only at hh2
        split at hh2
        · cases hh2; exact hb
        · split at hh2 <;> (cases hh2; exact hb)
      simp only [apply_call, hh2] at hh1
      exact ih h2 hb2 h1 hh1

/-- A read returns a count only when the request is empty: a call that
returns a value `v ≥ 0` was asked for 0 bytes and returns 0. -/
theorem read_returns_count_only_when_empty (env : Collaborators) (fuel : Nat)
    (data_handle : Option libfsapfs_compressed_data_handle_t) (segment_index : Int)
    (segment_data : Option (List Nat)) (n : Nat) (v : Int) (e : Option Error)
    (hret : (libfsapfs_compressed_data_handle_read_segment_data env fuel data_handle
      segment_index segment_data n).outcome = Outcome.returned v e)
    (hv : 0 ≤ v) : n = 0 ∧ v = 0 := by
  rcases data_handle with _ | h
  · simp [libfsapfs_compressed_data_handle_read_segment_data] at hret
    omega
  · by_cases hidx : segment_index = 0
    · subst hidx
      rcases segment_data with _ | buffer
      · simp [libfsapfs_compressed_data_handle_read_segment_data] at hret
        omega
      · by_cases hbig : n ≤ SSIZE_MAX
        · rw [read_valid env fuel h buffer n hbig] at hret
          by_cases hn : 0 < n
          · have := (loop_pos_returned env fuel (read_segment_data_enter h buffer n) hn v e
              hret).1
            omega
          · have hz : (read_segment_data_enter h buffer n).segment_data_size = 0 := by
              simp only [read_segment_data_enter]; omega
            rw [loop_zero env fuel _ hz] at hret
            simp only [read_segment_data_enter] at hret
            injection hret with h1 _
            refine ⟨by omega, ?_⟩
            rw [← h1]; decide
        · simp [libfsapfs_compressed_data_handle_read_segment_data, not_le.mp hbig] at hret
          omega
    · simp [libfsapfs_compressed_data_handle_read_segment_data, hidx] at hret
      omega

/-! ## The claims -/

/-- C1 (the code departs from it): in the end-to-end scenario a read of 66560
bytes from offset 0 does not return 66560: whatever bound is put on the number
of executions of the loop body, the run has not returned. -/
theorem C1_scenario_full_read_never_returns :
    ∀ fuel : Nat,
      (libfsapfs_compressed_data_handle_read_segment_data scenario fuel
        (some scenario_handle) 0 (some (List.replicate 66560 0)) 66560).outcome
        = Outcome.out_of_fuel := by
  intro fuel
  rw [read_valid _ _ _ _ _ (by decide)]
  exact loop_diverges_of_falls_through _ _ (by decide) (by decide) fuel

/-- C2 (the code departs from it): on the one-block stream, for a read of one
byte from offset 0, an execution of the loop body that does not return leaves
the request that remains at 1 and the output offset at 0, and whatever bound
is put on the number of executions of the body the run has not returned. -/
theorem C2_remaining_request_not_decreased :
    (∃ s1, read_segment_data_body tiny (read_segment_data_enter tiny_handle [0] 1) = Step.next s1
        ∧ s1.segment_data_size = 1 ∧ s1.segment_data_offset = 0)
      ∧ ∀ fuel : Nat,
          (libfsapfs_compressed_data_handle_read_segment_data tiny fuel
            (some tiny_handle) 0 (some [0]) 1).outcome = Outcome.out_of_fuel := by
  constructor
  · cases hbody : read_segment_data_body tiny (read_segment_data_enter tiny_handle [0] 1) with
    | ret v e s1 =>
      have : (read_segment_data_body tiny
          (read_segment_data_enter tiny_handle [0] 1)).falls_through = true := by decide
      rw [hbody] at this
      cases this
    | next s1 =>
      obtain ⟨a, b, _⟩ := body_next _ _ _ hbody
      exact ⟨s1, rfl, a, b⟩
  · intro fuel
    rw [read_valid _ _ _ _ _ (by decide)]
    exact loop_diverges_of_falls_through _ _ (by decide) (by decide) fuel

/-- C3, as the code has it: a read of one byte at offset 66560 of the
scenario stream (`uncompressed_data_size = 66560`, final block of 1024 bytes)
returns `-1` with a runtime out-of-bounds error, not a count of 0. -/
theorem C3_read_at_end_returns_error :
    scenario_handle.uncompressed_data_size ≤ 66560
      ∧ (libfsapfs_compressed_data_handle_read_segment_data scenario 1
          (some { scenario_handle with current_segment_offset := 66560 }) 0 (some [0]) 1).outcome
        = Outcome.returned (-1)
            (some ⟨ErrorDomain.RUNTIME, ErrorCode.RUNTIME_ERROR_VALUE_OUT_OF_BOUNDS⟩) := by
  constructor
  · decide
  · decide

/-- C3, amended: a read of one or more bytes at a cursor whose offset in its
block is not less than the valid decoded length of that block, once the block
is resident (cached already, or fetched and decoded without error), returns
`-1` with a runtime out-of-bounds error. -/
theorem C3_read_past_decoded_length_fails (env : Collaborators) (fuel : Nat)
    (h : libfsapfs_compressed_data_handle_t) (buffer : List Nat) (n : Nat)
    (hn : 0 < n) (hmax : n ≤ SSIZE_MAX)
    (hfetch : (read_segment_data_fetch env
      (read_segment_data_enter h buffer n)).falls_through = true)
    (hend : (read_segment_data_fetch env
        (read_segment_data_enter h buffer n)).state.data_handle.segment_data_size
      ≤ size_t_of (Int.tmod h.current_segment_offset
          LIBFSAPFS_COMPRESSED_DATA_HANDLE_BLOCK_SIZE)) :
    (libfsapfs_compressed_data_handle_read_segment_data env (fuel + 1)
        (some h) 0 (some buffer) n).outcome
      = Outcome.returned (-1)
          (some ⟨ErrorDomain.RUNTIME, ErrorCode.RUNTIME_ERROR_VALUE_OUT_OF_BOUNDS⟩) := by
  rw [read_valid _ _ _ _ _ hmax]
  have hpos : 0 < (read_segment_data_enter h buffer n).segment_data_size := hn
  cases hf : read_segment_data_fetch env (read_segment_data_enter h buffer n) with
  | ret v e s1 => simp [hf, Step.falls_through] at hfetch
  | next s1 =>
    rw [hf] at hend
    simp only [Step.state] at hend
    have hoff : s1.data_offset
        = size_t_of (Int.tmod h.current_segment_offset
            LIBFSAPFS_COMPRESSED_DATA_HANDLE_BLOCK_SIZE) :=
      (fetch_next env _ s1 hf).2.2.1
    have hge : s1.data_offset ≥ s1.data_handle.segment_data_size := by
      rw [hoff]; exact hend
    simp [read_segment_data_loop, hpos, read_segment_data_body, hf, read_segment_data_copy, hge]

/-- C3, amended, at the end of the scenario stream. -/
theorem C3_read_past_decoded_length_fails_witness :
    (libfsapfs_compressed_data_handle_read_segment_data scenario (0 + 1)
        (some { scenario_handle with current_segment_offset := 66560 }) 0 (some [0]) 1).outcome
      = Outcome.returned (-1)
          (some ⟨ErrorDomain.RUNTIME, ErrorCode.RUNTIME_ERROR_VALUE_OUT_OF_BOUNDS⟩) :=
  C3_read_past_decoded_length_fails scenario 0
    { scenario_handle with current_segment_offset := 66560 } [0] 1
    (by decide) (by decide) (by decide) (by decide)

/-- C4 (the code departs from it): on the one-block stream, after a seek to
offset 1 a read of one byte has not returned whatever bound is put on the
executions of the loop body, and neither has a read of two bytes after a seek
to offset 0; there are no bytes to compare. -/
theorem C4_seek_then_read_never_returns :
    (libfsapfs_compressed_data_handle_seek_segment_offset (some tiny_handle) 0 1).ret = 1
      ∧ (∀ fuel : Nat,
          (libfsapfs_compressed_data_handle_read_segment_data tiny fuel
            (libfsapfs_compressed_data_handle_seek_segment_offset
              (some tiny_handle) 0 1).data_handle
            0 (some [0]) 1).outcome = Outcome.out_of_fuel)
      ∧ (∀ fuel : Nat,
          (libfsapfs_compressed_data_handle_read_segment_data tiny fuel
            (libfsapfs_compressed_data_handle_seek_segment_offset
              (some tiny_handle) 0 0).data_handle
            0 (some [0, 0]) (1 + 1)).outcome = Outcome.out_of_fuel) := by
  refine ⟨by decide, ?_, ?_⟩
  · intro fuel
    have hs : (libfsapfs_compressed_data_handle_seek_segment_offset
        (some tiny_handle) 0 1).data_handle
          = some { tiny_handle with current_segment_offset := 1 } := by decide
    rw [hs, read_valid _ _ _ _ _ (by decide)]
    exact loop_diverges_of_falls_through _ _ (by decide) (by decide) fuel
  · intro fuel
    have hs : (libfsapfs_compressed_data_handle_seek_segment_offset
        (some tiny_handle) 0 0).data_handle
          = some { tiny_handle with current_segment_offset := 0 } := by decide
    rw [hs, read_valid _ _ _ _ _ (by decide)]
    exact loop_diverges_of_falls_through _ _ (by decide) (by decide) fuel

/-- C7: when the allocations succeed, `initialize` returns `-1` exactly when
the handle reference is null, the referenced value is already set, the stream
is null or the method is none of the three supported ones, and returns `1`
otherwise; when it returns `-1` the reference and the value it references are
what they were. -/
theorem C7_initialize_fails_iff (defs : Definitions) (mem : Allocations)
    (data_handle : Option (Option libfsapfs_compressed_data_handle_t))
    (compressed_data_stream : Option Nat) (uncompressed_data_size : Nat)
    (compression_method : Int)
    (halloc : mem.data_handle = true ∧ mem.compressed_segment_data ≠ none
      ∧ mem.segment_data ≠ none) :
    (( libfsapfs_compressed_data_handle_initialize defs mem data_handle
          compressed_data_stream uncompressed_data_size compression_method).ret = -1
        ↔ (data_handle = none
            ∨ (∃ h, data_handle = some (some h))
            ∨ compressed_data_stream = none
            ∨ (compression_method ≠ defs.LIBFSAPFS_COMPRESSION_METHOD_NONE
                ∧ compression_method ≠ defs.LIBFSAPFS_COMPRESSION_METHOD_DEFLATE
                ∧ compression_method ≠ defs.LIBFSAPFS_COMPRESSION_METHOD_LZVN)))
      ∧ (( libfsapfs_compressed_data_handle_initialize defs mem data_handle
            compressed_data_stream uncompressed_data_size compression_method).ret ≠ -1 →
          ( libfsapfs_compressed_data_handle_initialize defs mem data_handle
            compressed_data_stream uncompressed_data_size compression_method).ret = 1)
      ∧ (( libfsapfs_compressed_data_handle_initialize defs mem data_handle
            compressed_data_stream uncompressed_data_size compression_method).ret = -1 →
          ( libfsapfs_compressed_data_handle_initialize defs mem data_handle
            compressed_data_stream uncompressed_data_size compression_method).data_handle
            = data_handle) := by
  obtain ⟨ha, hb, hc⟩ := halloc
  obtain ⟨cbuf, hcbuf⟩ := Option.ne_none_iff_exists'.mp hb
  obtain ⟨sbuf, hsbuf⟩ := Option.ne_none_iff_exists'.mp hc
  unfold libfsapfs_compressed_data_handle_initialize
  rcases data_handle with _ | _ | h0
  · simp
  · by_cases hs : compressed_data_stream = none
    · simp [hs]
    · by_cases hm : compression_method ≠ defs.LIBFSAPFS_COMPRESSION_METHOD_NONE
          ∧ compression_method ≠ defs.LIBFSAPFS_COMPRESSION_METHOD_DEFLATE
          ∧ compression_method ≠ defs.LIBFSAPFS_COMPRESSION_METHOD_LZVN
      · simp only [hs, if_false, hm, and_self, if_true]
        simp [hm]
      · simp only [hs, if_false, hm, ha, hcbuf, hsbuf]
        simp [hs, hm]
  · simp

/-- C7 at a first construction with the deflate method. -/
theorem C7_initialize_fails_iff_witness :
    ( libfsapfs_compressed_data_handle_initialize example_definitions example_allocations
      (some none) (some 1) 66560 1).ret = 1 :=
  (C7_initialize_fails_iff example_definitions example_allocations (some none) (some 1)
    66560 1 (by decide)).2.1 (by decide)

/-- C8, as the code has it: on a handle fresh from a successful `initialize`
a first read of no bytes returns 0 and has made no call at all, so it has not
fetched from the underlying stream. -/
theorem C8_first_read_of_no_bytes_does_not_fetch :
    ( libfsapfs_compressed_data_handle_initialize example_definitions example_allocations
        (some none) (some 1) 66560 1).ret = 1
      ∧ (libfsapfs_compressed_data_handle_read_segment_data scenario 1
          ( libfsapfs_compressed_data_handle_initialize example_definitions example_allocations
            (some none) (some 1) 66560 1).data_handle.join
          0 (some [7]) 0).outcome = Outcome.returned 0 none
      ∧ (libfsapfs_compressed_data_handle_read_segment_data scenario 1
          ( libfsapfs_compressed_data_handle_initialize example_definitions example_allocations
            (some none) (some 1) 66560 1).data_handle.join
          0 (some [7]) 0).trace = [] := by
  refine ⟨by decide, by decide, by decide⟩

/-- C8, amended: after a successful `initialize` the new handle has cursor 0,
cached block index `-1`, valid decoded length 0, and the stream, size and
method of the arguments; and after a seek to any offset `k ≥ 0` the first read
of one or more bytes (with valid arguments) begins with a read of the
underlying stream, of one block at offset `k / 65536`. -/
theorem C8_initialize_state_and_first_read_fetches (defs : Definitions) (mem : Allocations)
    (data_handle : Option (Option libfsapfs_compressed_data_handle_t))
    (compressed_data_stream : Option Nat) (uncompressed_data_size : Nat)
    (compression_method : Int)
    (hok : ( libfsapfs_compressed_data_handle_initialize defs mem data_handle
      compressed_data_stream uncompressed_data_size compression_method).ret = 1) :
    ∃ h, ( libfsapfs_compressed_data_handle_initialize defs mem data_handle
          compressed_data_stream uncompressed_data_size compression_method).data_handle
        = some (some h)
      ∧ h.current_segment_offset = 0
      ∧ h.compressed_data_stream_offset = -1
      ∧ h.segment_data_size = 0
      ∧ h.compressed_data_stream = compressed_data_stream
      ∧ h.uncompressed_data_size = uncompressed_data_size
      ∧ h.compression_method = compression_method
      ∧ ∀ (env : Collaborators) (fuel : Nat) (k : Int) (buffer : List Nat) (n : Nat),
          0 ≤ k → 0 < n → n ≤ SSIZE_MAX →
          (libfsapfs_compressed_data_handle_seek_segment_offset (some h) 0 k).ret = k
            ∧ (libfsapfs_compressed_data_handle_read_segment_data env (fuel + 1)
                (libfsapfs_compressed_data_handle_seek_segment_offset (some h) 0 k).data_handle
                0 (some buffer) n).trace.head?
              = some (Event.stream_read compressed_data_stream
                  LIBFSAPFS_COMPRESSED_DATA_HANDLE_BLOCK_SIZE
                  (k / LIBFSAPFS_COMPRESSED_DATA_HANDLE_BLOCK_SIZE)) := by
  unfold libfsapfs_compressed_data_handle_initialize at hok ⊢
  rcases data_handle with _ | _ | h0
  · simp at hok
  · by_cases hs : compressed_data_stream = none
    · simp [hs] at hok
    · by_cases hm : compression_method ≠ defs.LIBFSAPFS_COMPRESSION_METHOD_NONE
          ∧ compression_method ≠ defs.LIBFSAPFS_COMPRESSION_METHOD_DEFLATE
          ∧ compression_method ≠ defs.LIBFSAPFS_COMPRESSION_METHOD_LZVN
      · simp [hs, hm] at hok
      · by_cases ha : mem.data_handle = false
        · simp [hs, hm, ha] at hok
        · rcases hcb : mem.compressed_segment_data with _ | cbuf
          · simp [hs, hm, ha, hcb] at hok
          · rcases hsb : mem.segment_data with _ | sbuf
            · simp [hs, hm, ha, hcb, hsb] at hok
            · simp only [hs, hm, ha, if_false]
              refine ⟨_, rfl, rfl, rfl, rfl, rfl, rfl, rfl, ?_⟩
              intro env fuel k buffer n hk hn hmax
              have hnot : ¬ k < 0 := not_lt.mpr hk
              have hdiv : Int.tdiv k (LIBFSAPFS_COMPRESSED_DATA_HANDLE_BLOCK_SIZE : Nat)
                  = k / (LIBFSAPFS_COMPRESSED_DATA_HANDLE_BLOCK_SIZE : Nat) :=
                Int.tdiv_eq_ediv hk (Int.ofNat_nonneg _)
              have hnn : 0 ≤ k / ((LIBFSAPFS_COMPRESSED_DATA_HANDLE_BLOCK_SIZE : Nat) : Int) :=
                Int.ediv_nonneg hk (Int.ofNat_nonneg _)
              simp only [libfsapfs_compressed_data_handle_seek_segment_offset, hnot,
                ne_eq, not_true_eq_false, if_false, true_and]
              rw [read_valid env (fuel + 1) _ buffer n hmax]
              rw [loop_miss_first_event env fuel _ hn rfl]
              · simp only [read_segment_data_enter, hdiv]
              · simp only [read_segment_data_enter, hdiv]
                omega
  · simp at hok

/-- C8, amended, at a first construction with the deflate method, a seek to
offset 70000 and a read of one byte from the scenario stream. -/
theorem C8_initialize_state_and_first_read_fetches_witness :
    ∃ h, ( libfsapfs_compressed_data_handle_initialize example_definitions example_allocations
          (some none) (some 1) 66560 1).data_handle = some (some h)
      ∧ h.current_segment_offset = 0
      ∧ h.compressed_data_stream_offset = -1
      ∧ h.segment_data_size = 0
      ∧ (libfsapfs_compressed_data_handle_read_segment_data scenario (0 + 1)
            (libfsapfs_compressed_data_handle_seek_segment_offset (some h) 0 70000).data_handle
            0 (some [0]) 1).trace.head?
          = some (Event.stream_read (some 1) LIBFSAPFS_COMPRESSED_DATA_HANDLE_BLOCK_SIZE
              (70000 / LIBFSAPFS_COMPRESSED_DATA_HANDLE_BLOCK_SIZE)) := by
  obtain ⟨h, h1, h2, h3, h4, _, _, _, h8⟩ :=
    C8_initialize_state_and_first_read_fetches example_definitions example_allocations
      (some none) (some 1) 66560 1 (by decide)
  exact ⟨h, h1, h2, h3, h4,
    (h8 scenario 0 70000 [0] 1 (by decide) (by decide) (by decide)).2⟩

/-- C9: on a non-null handle, with a segment index other than 0, both
`read_segment_data` and `seek_segment_offset` return `-1` with the argument
error "value out of bounds", whatever the other arguments. -/
theorem C9_nonzero_segment_index_rejected (env : Collaborators) (fuel : Nat)
    (h : libfsapfs_compressed_data_handle_t) (segment_index : Int)
    (segment_data : Option (List Nat)) (segment_data_size : Nat) (segment_offset : Int)
    (hidx : segment_index ≠ 0) :
    (libfsapfs_compressed_data_handle_read_segment_data env fuel (some h) segment_index
        segment_data segment_data_size).outcome
      = Outcome.returned (-1)
          (some ⟨ErrorDomain.ARGUMENTS, ErrorCode.ARGUMENT_ERROR_VALUE_OUT_OF_BOUNDS⟩)
      ∧ (libfsapfs_compressed_data_handle_seek_segment_offset (some h) segment_index
          segment_offset).ret = -1
      ∧ (libfsapfs_compressed_data_handle_seek_segment_offset (some h) segment_index
          segment_offset).error
        = some ⟨ErrorDomain.ARGUMENTS, ErrorCode.ARGUMENT_ERROR_VALUE_OUT_OF_BOUNDS⟩ := by
  simp [libfsapfs_compressed_data_handle_read_segment_data,
    libfsapfs_compressed_data_handle_seek_segment_offset, hidx]

/-- C9 at segment index 1 on the one-block stream. -/
theorem C9_nonzero_segment_index_rejected_witness :
    (1 : Int) ≠ 0
      ∧ (libfsapfs_compressed_data_handle_read_segment_data tiny 1 (some tiny_handle) 1
          (some [0]) 1).outcome
        = Outcome.returned (-1)
            (some ⟨ErrorDomain.ARGUMENTS, ErrorCode.ARGUMENT_ERROR_VALUE_OUT_OF_BOUNDS⟩)
      ∧ (libfsapfs_compressed_data_handle_seek_segment_offset (some tiny_handle) 1 0).ret = -1
      ∧ (libfsapfs_compressed_data_handle_seek_segment_offset (some tiny_handle) 1 0).error
        = some ⟨ErrorDomain.ARGUMENTS, ErrorCode.ARGUMENT_ERROR_VALUE_OUT_OF_BOUNDS⟩ :=
  ⟨by decide, C9_nonzero_segment_index_rejected tiny 1 tiny_handle 1 (some [0]) 1 0 (by decide)⟩

/-- C11: a `read_segment_data` rejected for its segment index, for a null
output buffer or for an oversized request, and a `seek_segment_offset`
rejected for its segment index or for a negative offset, return `-1` with an
error of the arguments domain and leave the handle, every field of it, as it
was; the read has made no call and left the buffer alone. -/
theorem C11_argument_errors_leave_the_handle (env : Collaborators) (fuel : Nat)
    (h : libfsapfs_compressed_data_handle_t)
    (segment_index : Int) (segment_data : Option (List Nat)) (segment_data_size : Nat)
    (seek_index : Int) (segment_offset : Int)
    (hread : segment_index ≠ 0 ∨ segment_data = none ∨ SSIZE_MAX < segment_data_size)
    (hseek : seek_index ≠ 0 ∨ segment_offset < 0) :
    ((∃ code, (libfsapfs_compressed_data_handle_read_segment_data env fuel (some h)
          segment_index segment_data segment_data_size).outcome
            = Outcome.returned (-1) (some ⟨ErrorDomain.ARGUMENTS, code⟩))
        ∧ (libfsapfs_compressed_data_handle_read_segment_data env fuel (some h)
            segment_index segment_data segment_data_size).data_handle = some h
        ∧ (libfsapfs_compressed_data_handle_read_segment_data env fuel (some h)
            segment_index segment_data segment_data_size).segment_data = segment_data
        ∧ (libfsapfs_compressed_data_handle_read_segment_data env fuel (some h)
            segment_index segment_data segment_data_size).trace = [])
      ∧ (libfsapfs_compressed_data_handle_seek_segment_offset (some h) seek_index
          segment_offset)
        = ⟨-1, some ⟨ErrorDomain.ARGUMENTS, ErrorCode.ARGUMENT_ERROR_VALUE_OUT_OF_BOUNDS⟩,
            some h⟩ := by
  constructor
  · unfold libfsapfs_compressed_data_handle_read_segment_data
    by_cases hidx : segment_index = 0
    · rcases segment_data with _ | buffer
      · simp [hidx]
      · have hbig : SSIZE_MAX < segment_data_size := by
          rcases hread with h1 | h1 | h1
          · exact absurd hidx h1
          · cases h1
          · exact h1
        simp [hidx, hbig]
    · simp [hidx]
  · unfold libfsapfs_compressed_data_handle_seek_segment_offset
    by_cases hidx : seek_index = 0
    · have hneg : segment_offset < 0 := by
        rcases hseek with h1 | h1
        · exact absurd hidx h1
        · exact h1
      simp [hidx, hneg]
    · simp [hidx]

/-- C11 at a read with a null buffer and a seek to offset `-5`, on a handle
that has block 0 cached. -/
theorem C11_argument_errors_leave_the_handle_witness :
    (libfsapfs_compressed_data_handle_read_segment_data tiny 1
        (some { tiny_handle with compressed_data_stream_offset := 0, segment_data_size := 4 })
        0 none 1).data_handle
      = some { tiny_handle with compressed_data_stream_offset := 0, segment_data_size := 4 }
    ∧ (libfsapfs_compressed_data_handle_seek_segment_offset
        (some { tiny_handle with compressed_data_stream_offset := 0, segment_data_size := 4 })
        0 (-5)).data_handle
      = some { tiny_handle with compressed_data_stream_offset := 0, segment_data_size := 4 } :=
  ⟨(C11_argument_errors_leave_the_handle tiny 1
      { tiny_handle with compressed_data_stream_offset := 0, segment_data_size := 4 }
      0 none 1 0 (-5) (by decide) (by decide)).1.2.1,
    congrArg SeekResult.data_handle
      (C11_argument_errors_leave_the_handle tiny 1
        { tiny_handle with compressed_data_stream_offset := 0, segment_data_size := 4 }
        0 none 1 0 (-5) (by decide) (by decide)).2⟩

/-- C12: on a non-null handle, with segment index 0 and an offset `k ≥ 0` of
any size, `seek_segment_offset` returns `k` without error and the handle
afterwards is the handle before with the cursor set to `k` (cached block
index, buffers and valid length as they were); and a seek fails (returns `-1`,
sets an error) exactly when the handle is null, the segment index is not 0 or
the offset is negative. -/
theorem C12_seek_sets_only_the_cursor (h : libfsapfs_compressed_data_handle_t) (k : Int)
    (hk : 0 ≤ k) :
    libfsapfs_compressed_data_handle_seek_segment_offset (some h) 0 k
        = ⟨k, none, some { h with current_segment_offset := k }⟩
      ∧ ∀ (data_handle : Option libfsapfs_compressed_data_handle_t)
          (segment_index segment_offset : Int),
          ((libfsapfs_compressed_data_handle_seek_segment_offset data_handle segment_index
              segment_offset).ret = -1
            ↔ (data_handle = none ∨ segment_index ≠ 0 ∨ segment_offset < 0))
          ∧ ((libfsapfs_compressed_data_handle_seek_segment_offset data_handle segment_index
              segment_offset).error ≠ none
            ↔ (data_handle = none ∨ segment_index ≠ 0 ∨ segment_offset < 0)) := by
  constructor
  · simp [libfsapfs_compressed_data_handle_seek_segment_offset, not_lt.mpr hk]
  · intro data_handle segment_index segment_offset
    unfold libfsapfs_compressed_data_handle_seek_segment_offset
    rcases data_handle with _ | h1
    · simp
    · by_cases hidx : segment_index = 0
      · by_cases hneg : segment_offset < 0
        · simp [hidx, hneg]
        · simp only [hidx, hneg, ne_eq, not_true_eq_false, if_false]
          constructor
          · constructor
            · intro h2
              simp only at h2
              omega
            · intro h2
              simp at h2
          · simp
      · simp [hidx]

/-- C12 at a seek to offset 1000000, far beyond the 4 bytes of the one-block
stream. -/
theorem C12_seek_sets_only_the_cursor_witness :
    libfsapfs_compressed_data_handle_seek_segment_offset (some tiny_handle) 0 1000000
      = ⟨1000000, none, some { tiny_handle with current_segment_offset := 1000000 }⟩ :=
  (C12_seek_sets_only_the_cursor tiny_handle 1000000 (by decide)).1

/-- C13: on a non-null reference `free` returns 1 and leaves the referenced
value null, whether it was a live handle or null already; so does a second
`free` after it; and after an `initialize` that failed on an unsupported
method (the target null, the stream not null) the target is still null and
`free` on it returns 1. -/
theorem C13_free_is_idempotent (defs : Definitions) (mem : Allocations)
    (value : Option libfsapfs_compressed_data_handle_t)
    (compressed_data_stream : Option Nat) (uncompressed_data_size : Nat)
    (compression_method : Int)
    (hstream : compressed_data_stream ≠ none)
    (hmethod : compression_method ≠ defs.LIBFSAPFS_COMPRESSION_METHOD_NONE
      ∧ compression_method ≠ defs.LIBFSAPFS_COMPRESSION_METHOD_DEFLATE
      ∧ compression_method ≠ defs.LIBFSAPFS_COMPRESSION_METHOD_LZVN) :
    libfsapfs_compressed_data_handle_free (some value) = ⟨1, none, some none⟩
      ∧ libfsapfs_compressed_data_handle_free
          (libfsapfs_compressed_data_handle_free (some value)).data_handle
        = ⟨1, none, some none⟩
      ∧ ( libfsapfs_compressed_data_handle_initialize defs mem (some none)
            compressed_data_stream uncompressed_data_size compression_method)
        = ⟨-1, some ⟨ErrorDomain.ARGUMENTS, ErrorCode.ARGUMENT_ERROR_UNSUPPORTED_VALUE⟩,
            some none⟩
      ∧ libfsapfs_compressed_data_handle_free
          ( libfsapfs_compressed_data_handle_initialize defs mem (some none)
            compressed_data_stream uncompressed_data_size compression_method).data_handle
        = ⟨1, none, some none⟩ := by
  have hinit : ( libfsapfs_compressed_data_handle_initialize defs mem (some none)
        compressed_data_stream uncompressed_data_size compression_method)
      = ⟨-1, some ⟨ErrorDomain.ARGUMENTS, ErrorCode.ARGUMENT_ERROR_UNSUPPORTED_VALUE⟩,
          some none⟩ := by
    simp [hstream, hmethod, libfsapfs_compressed_data_handle_initialize]
  refine ⟨rfl, rfl, hinit, ?_⟩
  rw [hinit]
  rfl

/-- C13 at a live handle, and at a construction with the unsupported method
7. -/
theorem C13_free_is_idempotent_witness :
    libfsapfs_compressed_data_handle_free (some (some tiny_handle)) = ⟨1, none, some none⟩
      ∧ libfsapfs_compressed_data_handle_free
          ( libfsapfs_compressed_data_handle_initialize example_definitions
            example_allocations (some none) (some 1) 66560 7).data_handle
        = ⟨1, none, some none⟩ :=
  ⟨(C13_free_is_idempotent example_definitions example_allocations (some tiny_handle)
      (some 1) 66560 7 (by decide) (by decide)).1,
    (C13_free_is_idempotent example_definitions example_allocations (some tiny_handle)
      (some 1) 66560 7 (by decide) (by decide)).2.2.2⟩

/-- C14: in a read of one or more bytes that has to fetch its block, when the
read of the underlying stream fails (`read_count < 0`) the call returns `-1`
with the error "read failed" of the input/output domain; when that read does
not fail and the codec rejects the block (it does not return 1) the call
returns `-1` with the error the code sets for a failed decode, the generic
error of the encryption domain; the two domains differ. -/
theorem C14_stream_and_codec_failures (env : Collaborators) (fuel : Nat)
    (h : libfsapfs_compressed_data_handle_t) (buffer : List Nat) (n : Nat)
    (hn : 0 < n) (hmax : n ≤ SSIZE_MAX)
    (hmiss : h.compressed_data_stream_offset
      ≠ Int.tdiv h.current_segment_offset LIBFSAPFS_COMPRESSED_DATA_HANDLE_BLOCK_SIZE) :
    ((stream_read_result env h).1 < 0 →
        (libfsapfs_compressed_data_handle_read_segment_data env (fuel + 1) (some h) 0
          (some buffer) n).outcome
          = Outcome.returned (-1)
              (some ⟨ErrorDomain.INPUT_OUTPUT, ErrorCode.IO_ERROR_READ_FAILED⟩))
      ∧ (¬ (stream_read_result env h).1 < 0 → (decompress_result env h).1 ≠ 1 →
          (libfsapfs_compressed_data_handle_read_segment_data env (fuel + 1) (some h) 0
            (some buffer) n).outcome
            = Outcome.returned (-1)
                (some ⟨ErrorDomain.ENCRYPTION, ErrorCode.ENCRYPTION_ERROR_GENERIC⟩))
      ∧ ErrorDomain.ENCRYPTION ≠ ErrorDomain.INPUT_OUTPUT := by
  have hpos : 0 < (read_segment_data_enter h buffer n).segment_data_size := hn
  have hm : (read_segment_data_enter h buffer n).data_handle.compressed_data_stream_offset
      ≠ (read_segment_data_enter h buffer n).data_stream_offset := hmiss
  have hfetch := fetch_miss env (read_segment_data_enter h buffer n) hm
  refine ⟨?_, ?_, by decide⟩
  · intro hfail
    have hfail1 : (env.libfdata_stream_read_buffer_at_offset
        (read_segment_data_enter h buffer n).data_handle.compressed_data_stream
        (read_segment_data_enter h buffer n).data_handle.compressed_segment_data
        LIBFSAPFS_COMPRESSED_DATA_HANDLE_BLOCK_SIZE
        (read_segment_data_enter h buffer n).data_stream_offset).1 < 0 := hfail
    rw [if_pos hfail1] at hfetch
    rw [read_valid _ _ _ _ _ hmax, loop_first_fetch_ret env fuel _ _ _ _ hpos hfetch]
  · intro hread hcodec
    have hread1 : ¬ (env.libfdata_stream_read_buffer_at_offset
        (read_segment_data_enter h buffer n).data_handle.compressed_data_stream
        (read_segment_data_enter h buffer n).data_handle.compressed_segment_data
        LIBFSAPFS_COMPRESSED_DATA_HANDLE_BLOCK_SIZE
        (read_segment_data_enter h buffer n).data_stream_offset).1 < 0 := hread
    have hcodec1 : (env.libfsapfs_decompress_data
        (env.libfdata_stream_read_buffer_at_offset
          (read_segment_data_enter h buffer n).data_handle.compressed_data_stream
          (read_segment_data_enter h buffer n).data_handle.compressed_segment_data
          LIBFSAPFS_COMPRESSED_DATA_HANDLE_BLOCK_SIZE
          (read_segment_data_enter h buffer n).data_stream_offset).2
        (size_t_of (env.libfdata_stream_read_buffer_at_offset
          (read_segment_data_enter h buffer n).data_handle.compressed_data_stream
          (read_segment_data_enter h buffer n).data_handle.compressed_segment_data
          LIBFSAPFS_COMPRESSED_DATA_HANDLE_BLOCK_SIZE
          (read_segment_data_enter h buffer n).data_stream_offset).1)
        (read_segment_data_enter h buffer n).data_handle.compression_method
        (read_segment_data_enter h buffer n).data_handle.segment_data
        LIBFSAPFS_COMPRESSED_DATA_HANDLE_BLOCK_SIZE).1 ≠ 1 := hcodec
    rw [if_neg hread1, if_pos hcodec1] at hfetch
    rw [read_valid _ _ _ _ _ hmax, loop_first_fetch_ret env fuel _ _ _ _ hpos hfetch]

/-- C14 at a read of one byte from the stream that cannot be read and from
the stream whose block the codec rejects. -/
theorem C14_stream_and_codec_failures_witness :
    (libfsapfs_compressed_data_handle_read_segment_data unreadable (0 + 1) (some tiny_handle)
        0 (some [0]) 1).outcome
      = Outcome.returned (-1)
          (some ⟨ErrorDomain.INPUT_OUTPUT, ErrorCode.IO_ERROR_READ_FAILED⟩)
    ∧ (libfsapfs_compressed_data_handle_read_segment_data corrupt (0 + 1) (some tiny_handle)
        0 (some [0]) 1).outcome
      = Outcome.returned (-1)
          (some ⟨ErrorDomain.ENCRYPTION, ErrorCode.ENCRYPTION_ERROR_GENERIC⟩) :=
  ⟨(C14_stream_and_codec_failures unreadable 0 tiny_handle [0] 1
      (by decide) (by decide) (by decide)).1 (by decide),
    (C14_stream_and_codec_failures corrupt 0 tiny_handle [0] 1
      (by decide) (by decide) (by decide)).2.1 (by decide) (by decide)⟩

/-- C15: after a successful `initialize`, and then any sequence of reads and
seeks whatever they return, the handle has the stream reference, the size and
the method given at construction, the method is one of none, deflate and LZVN,
and every call of the codec a further read makes is made with that method. -/
theorem C15_configuration_is_fixed (defs : Definitions) (mem : Allocations)
    (data_handle : Option (Option libfsapfs_compressed_data_handle_t))
    (compressed_data_stream : Option Nat) (uncompressed_data_size : Nat)
    (compression_method : Int) (env : Collaborators) (calls : List Call)
    (hok : ( libfsapfs_compressed_data_handle_initialize defs mem data_handle
      compressed_data_stream uncompressed_data_size compression_method).ret = 1) :
    ∃ h, run_calls env
          ( libfsapfs_compressed_data_handle_initialize defs mem data_handle
            compressed_data_stream uncompressed_data_size compression_method).data_handle.join
          calls = some h
      ∧ h.compressed_data_stream = compressed_data_stream
      ∧ h.uncompressed_data_size = uncompressed_data_size
      ∧ h.compression_method = compression_method
      ∧ (compression_method = defs.LIBFSAPFS_COMPRESSION_METHOD_NONE
          ∨ compression_method = defs.LIBFSAPFS_COMPRESSION_METHOD_DEFLATE
          ∨ compression_method = defs.LIBFSAPFS_COMPRESSION_METHOD_LZVN)
      ∧ ∀ (fuel : Nat) (segment_index : Int) (segment_data : Option (List Nat)) (n : Nat)
          (cd : List Nat) (cs : Nat) (m : Int) (cap : Nat),
          Event.decompress cd cs m cap
            ∈ (libfsapfs_compressed_data_handle_read_segment_data env fuel (some h)
                segment_index segment_data n).trace →
          m = compression_method := by
  have hinit : ∃ h0, ( libfsapfs_compressed_data_handle_initialize defs mem data_handle
        compressed_data_stream uncompressed_data_size compression_method).data_handle
          = some (some h0)
      ∧ h0.compressed_data_stream = compressed_data_stream
      ∧ h0.uncompressed_data_size = uncompressed_data_size
      ∧ h0.compression_method = compression_method
      ∧ (compression_method = defs.LIBFSAPFS_COMPRESSION_METHOD_NONE
          ∨ compression_method = defs.LIBFSAPFS_COMPRESSION_METHOD_DEFLATE
          ∨ compression_method = defs.LIBFSAPFS_COMPRESSION_METHOD_LZVN) := by
    unfold libfsapfs_compressed_data_handle_initialize at hok ⊢
    rcases data_handle with _ | _ | h0
    · simp at hok
    · by_cases hs : compressed_data_stream = none
      · simp [hs] at hok
      · by_cases hm : compression_method ≠ defs.LIBFSAPFS_COMPRESSION_METHOD_NONE
            ∧ compression_method ≠ defs.LIBFSAPFS_COMPRESSION_METHOD_DEFLATE
            ∧ compression_method ≠ defs.LIBFSAPFS_COMPRESSION_METHOD_LZVN
        · simp [hs, hm] at hok
        · by_cases ha : mem.data_handle = false
          · simp [hs, hm, ha] at hok
          · rcases hcb : mem.compressed_segment_data with _ | cbuf
            · simp [hs, hm, ha, hcb] at hok
            · rcases hsb : mem.segment_data with _ | sbuf
              · simp [hs, hm, ha, hcb, hsb] at hok
              · simp only [hs, hm, ha, if_false]
                refine ⟨_, rfl, rfl, rfl, rfl, ?_⟩
                by_contra hnot
                apply hm
                refine ⟨fun h1 => hnot (Or.inl h1), fun h1 => hnot (Or.inr (Or.inl h1)),
                  fun h1 => hnot (Or.inr (Or.inr h1))⟩
    · simp at hok
  obtain ⟨h0, hh0, hs0, hz0, hm0, hvalid⟩ := hinit
  obtain ⟨h, hrun, hc1, hc2, hc3⟩ := run_calls_configuration env calls h0
  refine ⟨h, ?_, hc1.trans hs0, hc2.trans hz0, hc3.trans hm0, hvalid, ?_⟩
  · rw [hh0]
    exact hrun
  · intro fuel segment_index segment_data n cd cs m cap hmem
    rw [read_decompress_method env fuel h segment_index segment_data n cd cs m cap hmem]
    exact hc3.trans hm0

/-- C15 at a construction with the deflate method followed by a seek to
offset 70000, a read of one byte that fails at the end of the scenario stream,
a read with a bad segment index and a read of 5 bytes from offset 0. -/
theorem C15_configuration_is_fixed_witness :
    ∃ h, run_calls scenario
          ( libfsapfs_compressed_data_handle_initialize example_definitions
            example_allocations (some none) (some 1) 66560 1).data_handle.join
          [Call.seek 0 70000, Call.read 1 0 (some [0]) 1, Call.read 1 3 (some [0]) 1,
            Call.seek 0 0, Call.read 2 0 (some [0, 0, 0, 0, 0]) 5] = some h
      ∧ h.compressed_data_stream = some 1
      ∧ h.uncompressed_data_size = 66560
      ∧ h.compression_method = 1 := by
  obtain ⟨h, h1, h2, h3, h4, _⟩ :=
    C15_configuration_is_fixed example_definitions example_allocations (some none) (some 1)
      66560 1 scenario
      [Call.seek 0 70000, Call.read 1 0 (some [0]) 1, Call.read 1 3 (some [0]) 1,
        Call.seek 0 0, Call.read 2 0 (some [0, 0, 0, 0, 0]) 5] (by decide)
  exact ⟨h, h1, h2, h3, h4⟩

/-- C16: a read of one or more bytes (valid arguments) on a handle whose
cached block index is not the block index of the cursor makes exactly one read
of the underlying stream, of 65536 bytes at that block index; when that read
does not fail it makes exactly one call of the codec, with the raw buffer as
the read left it, `(size_t) read_count` bytes, the method of the handle and a
capacity of 65536, and none when it fails; and when the codec returns 1 the
handle afterwards has the block index as cached index, the output length of
the codec as valid decoded length and the output of the codec as decoded
buffer (only the cursor may differ besides). -/
theorem C16_cache_miss_step (env : Collaborators) (fuel : Nat)
    (h : libfsapfs_compressed_data_handle_t) (buffer : List Nat) (n : Nat)
    (hn : 0 < n) (hmax : n ≤ SSIZE_MAX)
    (hmiss : h.compressed_data_stream_offset
      ≠ Int.tdiv h.current_segment_offset LIBFSAPFS_COMPRESSED_DATA_HANDLE_BLOCK_SIZE) :
    collaborator_calls (libfsapfs_compressed_data_handle_read_segment_data env (fuel + 1)
        (some h) 0 (some buffer) n).trace
      = Event.stream_read h.compressed_data_stream LIBFSAPFS_COMPRESSED_DATA_HANDLE_BLOCK_SIZE
          (Int.tdiv h.current_segment_offset LIBFSAPFS_COMPRESSED_DATA_HANDLE_BLOCK_SIZE)
        :: (if (stream_read_result env h).1 < 0 then []
            else [Event.decompress (stream_read_result env h).2
              (size_t_of (stream_read_result env h).1) h.compression_method
              LIBFSAPFS_COMPRESSED_DATA_HANDLE_BLOCK_SIZE])
      ∧ (¬ (stream_read_result env h).1 < 0 → (decompress_result env h).1 = 1 →
          ∃ c, (libfsapfs_compressed_data_handle_read_segment_data env (fuel + 1)
              (some h) 0 (some buffer) n).data_handle
            = some { h with
                current_segment_offset := c
                compressed_data_stream_offset :=
                  Int.tdiv h.current_segment_offset LIBFSAPFS_COMPRESSED_DATA_HANDLE_BLOCK_SIZE
                compressed_segment_data := (stream_read_result env h).2
                segment_data := (decompress_result env h).2.1
                segment_data_size := (decompress_result env h).2.2 }) := by
  have hpos : 0 < (read_segment_data_enter h buffer n).segment_data_size := hn
  have hm : (read_segment_data_enter h buffer n).data_handle.compressed_data_stream_offset
      ≠ (read_segment_data_enter h buffer n).data_stream_offset := hmiss
  have hfetch := fetch_miss env (read_segment_data_enter h buffer n) hm
  rw [read_valid _ _ _ _ _ hmax]
  constructor
  · rw [loop_first_calls env fuel _ hpos, hfetch]
    by_cases hfail : (stream_read_result env h).1 < 0
    · have hfail1 : (env.libfdata_stream_read_buffer_at_offset
          (read_segment_data_enter h buffer n).data_handle.compressed_data_stream
          (read_segment_data_enter h buffer n).data_handle.compressed_segment_data
          LIBFSAPFS_COMPRESSED_DATA_HANDLE_BLOCK_SIZE
          (read_segment_data_enter h buffer n).data_stream_offset).1 < 0 := hfail
      rw [if_pos hfail1, if_pos hfail]
      simp [Step.state, collaborator_calls, read_segment_data_enter]
    · have hfail1 : ¬ (env.libfdata_stream_read_buffer_at_offset
          (read_segment_data_enter h buffer n).data_handle.compressed_data_stream
          (read_segment_data_enter h buffer n).data_handle.compressed_segment_data
          LIBFSAPFS_COMPRESSED_DATA_HANDLE_BLOCK_SIZE
          (read_segment_data_enter h buffer n).data_stream_offset).1 < 0 := hfail
      rw [if_neg hfail1, if_neg hfail]
      split <;>
        simp [Step.state, collaborator_calls, read_segment_data_enter, stream_read_result]
  · intro hread hcodec
    have hread1 : ¬ (env.libfdata_stream_read_buffer_at_offset
        (read_segment_data_enter h buffer n).data_handle.compressed_data_stream
        (read_segment_data_enter h buffer n).data_handle.compressed_segment_data
        LIBFSAPFS_COMPRESSED_DATA_HANDLE_BLOCK_SIZE
        (read_segment_data_enter h buffer n).data_stream_offset).1 < 0 := hread
    have hcodec1 : ¬ (env.libfsapfs_decompress_data
        (env.libfdata_stream_read_buffer_at_offset
          (read_segment_data_enter h buffer n).data_handle.compressed_data_stream
          (read_segment_data_enter h buffer n).data_handle.compressed_segment_data
          LIBFSAPFS_COMPRESSED_DATA_HANDLE_BLOCK_SIZE
          (read_segment_data_enter h buffer n).data_stream_offset).2
        (size_t_of (env.libfdata_stream_read_buffer_at_offset
          (read_segment_data_enter h buffer n).data_handle.compressed_data_stream
          (read_segment_data_enter h buffer n).data_handle.compressed_segment_data
          LIBFSAPFS_COMPRESSED_DATA_HANDLE_BLOCK_SIZE
          (read_segment_data_enter h buffer n).data_stream_offset).1)
        (read_segment_data_enter h buffer n).data_handle.compression_method
        (read_segment_data_enter h buffer n).data_handle.segment_data
        LIBFSAPFS_COMPRESSED_DATA_HANDLE_BLOCK_SIZE).1 ≠ 1 := not_not.mpr hcodec
    rw [if_neg hread1, if_neg hcodec1] at hfetch
    rw [loop_after_fetch env fuel _ _ hpos hfetch]
    obtain ⟨c, hc⟩ := loop_hit_frame env (fuel + 1) _ (fetch_next env _ _ hfetch).1
    exact ⟨c, hc⟩

/-- C16 at a read of one byte from offset 0 of the one-block stream, on a
handle with no block cached. -/
theorem C16_cache_miss_step_witness :
    collaborator_calls (libfsapfs_compressed_data_handle_read_segment_data tiny (0 + 1)
        (some tiny_handle) 0 (some [0]) 1).trace
      = [Event.stream_read (some 1) 65536 0, Event.decompress [9, 0, 0, 0] 1 0 65536] := by
  have hcalls := (C16_cache_miss_step tiny 0 tiny_handle [0] 1
    (by decide) (by decide) (by decide)).1
  rw [hcalls]
  decide

/-- C17: in a read of one or more bytes in which, once the block of the
cursor is resident (cached already, or fetched and decoded without error), the
offset of the cursor in its block is not less than the valid decoded length,
the call returns `-1` with a runtime out-of-bounds error, has made no
`memory_copy`, leaves the output buffer as it was and leaves the cursor where
it was. -/
theorem C17_out_of_bounds_guard (env : Collaborators) (fuel : Nat)
    (h : libfsapfs_compressed_data_handle_t) (buffer : List Nat) (n : Nat)
    (hn : 0 < n) (hmax : n ≤ SSIZE_MAX)
    (hfetch : (read_segment_data_fetch env
      (read_segment_data_enter h buffer n)).falls_through = true)
    (hend : (read_segment_data_fetch env
        (read_segment_data_enter h buffer n)).state.data_handle.segment_data_size
      ≤ size_t_of (Int.tmod h.current_segment_offset
          LIBFSAPFS_COMPRESSED_DATA_HANDLE_BLOCK_SIZE)) :
    (libfsapfs_compressed_data_handle_read_segment_data env (fuel + 1)
        (some h) 0 (some buffer) n).outcome
      = Outcome.returned (-1)
          (some ⟨ErrorDomain.RUNTIME, ErrorCode.RUNTIME_ERROR_VALUE_OUT_OF_BOUNDS⟩)
      ∧ memory_copies (libfsapfs_compressed_data_handle_read_segment_data env (fuel + 1)
          (some h) 0 (some buffer) n).trace = []
      ∧ (libfsapfs_compressed_data_handle_read_segment_data env (fuel + 1)
          (some h) 0 (some buffer) n).segment_data = some buffer
      ∧ ∃ h1, (libfsapfs_compressed_data_handle_read_segment_data env (fuel + 1)
            (some h) 0 (some buffer) n).data_handle = some h1
          ∧ h1.current_segment_offset = h.current_segment_offset := by
  have hpos : 0 < (read_segment_data_enter h buffer n).segment_data_size := hn
  have hframe := fetch_state_frame env (read_segment_data_enter h buffer n)
  have hcopies := fetch_state_copies env (read_segment_data_enter h buffer n)
  cases hf : read_segment_data_fetch env (read_segment_data_enter h buffer n) with
  | ret v e s1 => simp [hf, Step.falls_through] at hfetch
  | next s1 =>
    rw [hf] at hend hframe hcopies
    simp only [Step.state] at hend hframe hcopies
    obtain ⟨_, _, _, hcur, _, hoff, _, _, hbuf⟩ := hframe
    have hge : s1.data_handle.segment_data_size ≤ s1.data_offset := by
      rw [hoff]; exact hend
    rw [read_valid _ _ _ _ _ hmax, loop_first_guard env fuel _ s1 hpos hf hge]
    refine ⟨rfl, ?_, ?_, s1.data_handle, rfl, ?_⟩
    · simp only [hcopies]
      rfl
    · simp only [hbuf]
      rfl
    · rw [hcur]
      rfl

/-- C17 at the end of the scenario stream: a read of one byte at offset
66560. -/
theorem C17_out_of_bounds_guard_witness :
    (libfsapfs_compressed_data_handle_read_segment_data scenario (0 + 1)
        (some { scenario_handle with current_segment_offset := 66560 }) 0 (some [7]) 1).outcome
      = Outcome.returned (-1)
          (some ⟨ErrorDomain.RUNTIME, ErrorCode.RUNTIME_ERROR_VALUE_OUT_OF_BOUNDS⟩)
      ∧ (libfsapfs_compressed_data_handle_read_segment_data scenario (0 + 1)
          (some { scenario_handle with current_segment_offset := 66560 }) 0 (some [7])
          1).segment_data = some [7] :=
  ⟨(C17_out_of_bounds_guard scenario 0
      { scenario_handle with current_segment_offset := 66560 } [7] 1
      (by decide) (by decide) (by decide) (by decide)).1,
    (C17_out_of_bounds_guard scenario 0
      { scenario_handle with current_segment_offset := 66560 } [7] 1
      (by decide) (by decide) (by decide) (by decide)).2.2.1⟩

/-- C18 (the code departs from it): on the stream whose block 0 the codec
rejects (the codec returns `-1` on every input), a read of one byte from
offset 0 on a handle with no block cached returns `-1` with the error of a
failed decode, and the handle afterwards has block 0 recorded as cached, with
a valid length of 2 over the bytes the failed decode left; the same read again
makes no call to the stream or the codec and copies one of those bytes to the
caller. -/
theorem C18_failed_decode_is_recorded_as_cached :
    (∀ a b c d e, (corrupt.libfsapfs_decompress_data a b c d e).1 ≠ 1)
      ∧ (libfsapfs_compressed_data_handle_read_segment_data corrupt 1 (some tiny_handle) 0
          (some [0]) 1)
        = ⟨Outcome.returned (-1)
              (some ⟨ErrorDomain.ENCRYPTION, ErrorCode.ENCRYPTION_ERROR_GENERIC⟩),
            some { tiny_handle with
              compressed_data_stream_offset := 0
              compressed_segment_data := [9, 0, 0, 0]
              segment_data := [99, 99, 0, 0]
              segment_data_size := 2 },
            some [0],
            [Event.stream_read (some 1) 65536 0, Event.decompress [9, 0, 0, 0] 1 0 65536]⟩
      ∧ (libfsapfs_compressed_data_handle_read_segment_data corrupt 1
          (libfsapfs_compressed_data_handle_read_segment_data corrupt 1 (some tiny_handle) 0
            (some [0]) 1).data_handle
          0 (some [0]) 1).trace = [Event.memory_copy 0 0 1]
      ∧ (libfsapfs_compressed_data_handle_read_segment_data corrupt 1
          (libfsapfs_compressed_data_handle_read_segment_data corrupt 1 (some tiny_handle) 0
            (some [0]) 1).data_handle
          0 (some [0]) 1).segment_data = some [99] := by
  refine ⟨?_, by decide, by decide, by decide⟩
  intro a b c d e
  simp [corrupt]

/-- C19: when the codec, given a capacity of 65536, never reports an output
length above 65536, then on a handle made by a successful `initialize` and
taken through any sequence of reads and seeks, every `memory_copy` of a read
has a size of 1 or more, reads a source range that ends within the valid
decoded length (the one the handle has after the call, which is the one it
had at the copy), that length being 65536 at most, and writes a destination
range that ends within the requested size. -/
theorem C19_copy_bounds (defs : Definitions) (mem : Allocations)
    (data_handle : Option (Option libfsapfs_compressed_data_handle_t))
    (compressed_data_stream : Option Nat) (uncompressed_data_size : Nat)
    (compression_method : Int) (env : Collaborators) (calls : List Call)
    (hcodec : ∀ a b c d,
      (env.libfsapfs_decompress_data a b c d LIBFSAPFS_COMPRESSED_DATA_HANDLE_BLOCK_SIZE).2.2
        ≤ LIBFSAPFS_COMPRESSED_DATA_HANDLE_BLOCK_SIZE)
    (hok : ( libfsapfs_compressed_data_handle_initialize defs mem data_handle
      compressed_data_stream uncompressed_data_size compression_method).ret = 1) :
    ∃ h, run_calls env
          ( libfsapfs_compressed_data_handle_initialize defs mem data_handle
            compressed_data_stream uncompressed_data_size compression_method).data_handle.join
          calls = some h
      ∧ ∀ (fuel : Nat) (segment_index : Int) (segment_data : Option (List Nat)) (n : Nat)
          (destination source size : Nat),
          Event.memory_copy destination source size
            ∈ (libfsapfs_compressed_data_handle_read_segment_data env fuel (some h)
                segment_index segment_data n).trace →
          ∃ h1, (libfsapfs_compressed_data_handle_read_segment_data env fuel (some h)
                segment_index segment_data n).data_handle = some h1
            ∧ 1 ≤ size
            ∧ source + size ≤ h1.segment_data_size
            ∧ h1.segment_data_size ≤ LIBFSAPFS_COMPRESSED_DATA_HANDLE_BLOCK_SIZE
            ∧ destination + size ≤ n := by
  have hinit : ∃ h0, ( libfsapfs_compressed_data_handle_initialize defs mem data_handle
        compressed_data_stream uncompressed_data_size compression_method).data_handle
          = some (some h0)
      ∧ h0.segment_data_size = 0 := by
    unfold libfsapfs_compressed_data_handle_initialize at hok ⊢
    rcases data_handle with _ | _ | h0
    · simp at hok
    · by_cases hs : compressed_data_stream = none
      · simp [hs] at hok
      · by_cases hm : compression_method ≠ defs.LIBFSAPFS_COMPRESSION_METHOD_NONE
            ∧ compression_method ≠ defs.LIBFSAPFS_COMPRESSION_METHOD_DEFLATE
            ∧ compression_method ≠ defs.LIBFSAPFS_COMPRESSION_METHOD_LZVN
        · simp [hs, hm] at hok
        · by_cases ha : mem.data_handle = false
          · simp [hs, hm, ha] at hok
          · rcases hcb : mem.compressed_segment_data with _ | cbuf
            · simp [hs, hm, ha, hcb] at hok
            · rcases hsb : mem.segment_data with _ | sbuf
              · simp [hs, hm, ha, hcb, hsb] at hok
              · simp only [hs, hm, ha, if_false]
                exact ⟨_, rfl, rfl⟩
    · simp at hok
  obtain ⟨h0, hh0, hz0⟩ := hinit
  have hb0 : h0.segment_data_size ≤ LIBFSAPFS_COMPRESSED_DATA_HANDLE_BLOCK_SIZE := by
    rw [hz0]; exact Nat.zero_le _
  obtain ⟨h, hrun, _⟩ := run_calls_configuration env calls h0
  have hb : h.segment_data_size ≤ LIBFSAPFS_COMPRESSED_DATA_HANDLE_BLOCK_SIZE :=
    run_calls_bound env hcodec calls h0 hb0 h hrun
  refine ⟨h, by rw [hh0]; exact hrun, ?_⟩
  intro fuel segment_index segment_data n destination source size hmem
  obtain ⟨h1, hh1, hsize, hsrc, hdst⟩ :=
    read_copies env fuel h segment_index segment_data n destination source size hmem
  exact ⟨h1, hh1, hsize, hsrc,
    read_bound env hcodec fuel h segment_index segment_data n hb h1 hh1, hdst⟩

/-- C19 on the one-block stream: after a construction and a seek to offset 1,
the copies of a read of 3 bytes, run for two executions of the loop body. -/
theorem C19_copy_bounds_witness :
    ∃ h, run_calls tiny
          ( libfsapfs_compressed_data_handle_initialize example_definitions
            example_allocations (some none) (some 1) 4 0).data_handle.join
          [Call.seek 0 1] = some h
      ∧ ∀ (destination source size : Nat),
          Event.memory_copy destination source size
            ∈ (libfsapfs_compressed_data_handle_read_segment_data tiny 2 (some h)
                0 (some [0, 0, 0]) 3).trace →
          1 ≤ size ∧ destination + size ≤ 3 := by
  obtain ⟨h, h1, h2⟩ :=
    C19_copy_bounds example_definitions example_allocations (some none) (some 1) 4 0 tiny
      [Call.seek 0 1]
      (by intro a b c d; simp only [tiny]; split <;> simp [LIBFSAPFS_COMPRESSED_DATA_HANDLE_BLOCK_SIZE])
      (by decide)
  refine ⟨h, h1, ?_⟩
  intro destination source size hmem
  obtain ⟨_, _, h3, _, _, h6⟩ := h2 2 0 (some [0, 0, 0]) 3 destination source size hmem
  exact ⟨h3, h6⟩

/-- C20: on a non-null handle, with segment index 0 and a non-null buffer, a
read of 0 bytes returns 0 without error, has made no call (to the stream, to
the codec or to `memory_copy`), and leaves the buffer and every field of the
handle as they were, wherever the cursor is. -/
theorem C20_read_of_no_bytes_is_a_no_op (env : Collaborators) (fuel : Nat)
    (h : libfsapfs_compressed_data_handle_t) (buffer : List Nat)
    (hr : off64_range h.current_segment_offset) :
    libfsapfs_compressed_data_handle_read_segment_data env fuel (some h) 0 (some buffer) 0
      = ⟨Outcome.returned 0 none, some h, some buffer, []⟩ := by
  have hz : (read_segment_data_enter h buffer 0).segment_data_size = 0 := rfl
  rw [read_valid env fuel h buffer 0 (by decide), loop_zero env fuel _ hz]
  simp only [read_segment_data_enter]
  have hc : int64_of (h.current_segment_offset + ((0 : Nat) : Int))
      = h.current_segment_offset := by
    simp [int64_of_range _ hr]
  rw [hc]
  rfl

/-- C20 at a read of no bytes with the cursor at 1000000, beyond the 4 bytes
of the one-block stream. -/
theorem C20_read_of_no_bytes_is_a_no_op_witness :
    libfsapfs_compressed_data_handle_read_segment_data tiny 1
        (some { tiny_handle with current_segment_offset := 1000000 }) 0 (some [7, 8]) 0
      = ⟨Outcome.returned 0 none,
          some { tiny_handle with current_segment_offset := 1000000 }, some [7, 8], []⟩ :=
  C20_read_of_no_bytes_is_a_no_op tiny 1
    { tiny_handle with current_segment_offset := 1000000 } [7, 8] (by decide)
